import Mathlib

/-!
Connection configuration of `config.go`.

A shallow embedding of `src/config.go`: the `Target` record, the connection-string
builders `BaseDSN`, `DSN` and `HostAndOptionalPort`, the merge of command-line
overrides `MergeCLIConfig`, the lazy accessor `Instance`, the bulk hydration
`SetInstances` and the flag extraction `ParseGlobalFlags`.

Modelling conventions.

* A Go `string` is a Lean `String`; the library functions work on its list of
  characters. Only ASCII bytes (`:`, `+`, `-`, the digits) are inspected by the
  code, so the character view and the byte view agree on well-formed UTF-8.
* A Go `int` is an `Int`. The only place where the machine width matters is the
  range check of `strconv.Atoi`, modelled with `intSize = 64`.
* A `*tengo.Instance` is an `Option Nat`: `none` is the nil pointer and `some k`
  is the object built by the `k`-th call of `tengo.NewInstance`.
* A `*Target` is an address into a heap `Nat → Target`; a `TargetList` is a list
  of addresses, so that one Target may occur at several positions.
* A `*pflag.FlagSet` is the pair of its typed retrievals `GetString` and `GetInt`; a Go
  `error` is an `Option String`, `none` for nil.
-/

namespace Skeema

/-! ## Library functions used by the source -/

/-- Operand of a formatting verb of `fmt.Sprintf`. -/
inductive Arg where
  | str (s : String)
  | int (n : Int)

/-- Verb `%d` applied to an `int`: the decimal digits, with a leading minus sign for a
negative number. -/
def formatInt : Int → List Char
  | Int.ofNat n => Nat.toDigits 10 n
  | Int.negSucc n => '-' :: Nat.toDigits 10 (n + 1)

/-- The formatting loop of `fmt.Sprintf` for the verbs that occur in the source, `%s` with a
string operand and `%d` with an integer operand; every other character of the format is copied. -/
def sprintfChars : List Char → List Arg → List Char
  | [], _ => []
  | [c], _ => [c]
  | c :: v :: f, args =>
    if c = '%' then
      match v, args with
      | 's', Arg.str s :: rest => s.data ++ sprintfChars f rest
      | 'd', Arg.int n :: rest => formatInt n ++ sprintfChars f rest
      | _, _ => c :: sprintfChars (v :: f) args
    else c :: sprintfChars (v :: f) args

/-- Model of `fmt.Sprintf(format, args...)`. -/
def Sprintf (format : String) (args : List Arg) : String :=
  String.mk (sprintfChars format.data args)

/-- Model of `strings.Index(s, sep)` on character lists: the first position at which `sep`
occurs in `s`, `none` standing for `-1`. -/
def Index (sep : List Char) : List Char → Option Nat
  | [] => if sep = [] then some 0 else none
  | c :: s =>
    if sep.isPrefixOf (c :: s) then some 0
    else (Index sep s).map (fun m => m + 1)

/-- The splitting loop of `strings.SplitN` for a non-empty separator: at most `n` pieces, the last
one being the unsplit remainder. -/
def splitNChars (sep : List Char) : Nat → List Char → List (List Char)
  | 0, _ => []
  | 1, s => [s]
  | n + 2, s =>
    match Index sep s with
    | none => [s]
    | some m => s.take m :: splitNChars sep (n + 1) (s.drop (m + sep.length))

/-- The branch of `strings.SplitN` for an empty separator: one piece per character, at most `n`
pieces, the last one being the remainder. -/
def explode : Nat → List Char → List (List Char)
  | 0, _ => []
  | _, [] => []
  | 1, s => [s]
  | n + 2, c :: s => [c] :: explode (n + 1) s

/-- Model of `strings.SplitN(s, sep, n)` for `n ≥ 0`. -/
def SplitN (s sep : String) (n : Nat) : List String :=
  if sep = "" then (explode n s.data).map String.mk
  else (splitNChars sep.data n s.data).map String.mk

/-- Errors of `strconv.Atoi`. -/
inductive NumError where
  | ErrSyntax
  | ErrRange
  deriving DecidableEq

/-- Width of the Go type `int`. -/
def intSize : Nat := 64

/-- The digit loop of `strconv.ParseUint` for base 10 and bit size `intSize`, with the 64-bit
accumulator `n`. The characters are read from the left: a character that is not a digit ends
the loop with a syntax error and the value `0`; a digit at which the accumulator overflows ends
the loop with a range error and the largest value, whatever characters follow. -/
def parseUintLoop : List Char → Nat → Nat × Option NumError
  | [], n => (n, none)
  | c :: s, n =>
    if '0' ≤ c ∧ c ≤ '9' then
      if n ≥ (2 ^ 64 - 1) / 10 + 1 then (2 ^ intSize - 1, some NumError.ErrRange)
      else
        let n10 := (n * 10) % 2 ^ 64
        let n1 := (n10 + (c.toNat - '0'.toNat)) % 2 ^ 64
        if n1 < n10 ∨ n1 > 2 ^ intSize - 1 then (2 ^ intSize - 1, some NumError.ErrRange)
        else parseUintLoop s n1
    else (0, some NumError.ErrSyntax)

/-- Model of `strconv.ParseUint(s, 10, 0)` on a character list. -/
def parseUintChars (s : List Char) : Nat × Option NumError :=
  if s = [] then (0, some NumError.ErrSyntax) else parseUintLoop s 0

/-- Model of `strconv.ParseInt(s, 10, 0)` on a character list: the sign is removed, the rest is
read by `ParseUint`, a syntax error is passed on with the value `0`, and a magnitude that does
not fit gives a range error with the largest magnitude of the sign. -/
def parseIntChars (s : List Char) : Int × Option NumError :=
  if s = [] then (0, some NumError.ErrSyntax)
  else
    let neg := s.head? = some '-'
    let body := if s.head? = some '+' ∨ s.head? = some '-' then s.tail else s
    let r := parseUintChars body
    if r.2 = some NumError.ErrSyntax then (0, some NumError.ErrSyntax)
    else
      let cutoff : Nat := 2 ^ (intSize - 1)
      if ¬ neg ∧ r.1 ≥ cutoff then ((cutoff : Int) - 1, some NumError.ErrRange)
      else if neg ∧ r.1 > cutoff then (-(cutoff : Int), some NumError.ErrRange)
      else if neg then (-(r.1 : Int), none)
      else ((r.1 : Int), none)

/-- Model of `strconv.Atoi` on a character list, which is `ParseInt(s, 10, 0)` converted to
`int`: the value and the error. -/
def atoiChars (s : List Char) : Int × Option NumError :=
  parseIntChars s

/-- Model of `strconv.Atoi(s)`. -/
def Atoi (s : String) : Int × Option NumError :=
  atoiChars s.data

/-- A `*tengo.Instance`: `none` is nil, `some k` is the object of the `k`-th factory call. -/
abbrev InstancePtr := Option Nat

/-- State of the external library `tengo`: the arguments `(driver, dsn)` of the calls of
`tengo.NewInstance` made so far, oldest first. -/
structure Tengo where
  calls : List (String × String)
  deriving DecidableEq

/-- Model of `tengo.NewInstance(driver, dsn)`: it returns a fresh non-nil object on each call. -/
def NewInstance (w : Tengo) (driver dsn : String) : InstancePtr × Tengo :=
  (some w.calls.length, { calls := w.calls ++ [(driver, dsn)] })

/-! ## The source -/

/-- The struct `Target`. -/
structure Target where
  Host : String
  Port : Int
  User : String
  Password : String
  Schema : String
  Driver : String
  instance_ : InstancePtr
  deriving DecidableEq

/-- The struct `ParsedGlobalFlags`. -/
structure ParsedGlobalFlags where
  Path : String
  Host : String
  Port : Int
  User : String
  Password : String
  Schema : String
  deriving DecidableEq

/-- Method `Target.BaseDSN`: the DSN without any trailing schema name. -/
def Target.BaseDSN (t : Target) : String :=
  let userAndPass :=
    if t.Password = "" then t.User
    else Sprintf "%s:%s" [Arg.str t.User, Arg.str t.Password]
  Sprintf "%s@tcp(%s:%d)/" [Arg.str userAndPass, Arg.str t.Host, Arg.int t.Port]

/-- Method `Target.DSN`. -/
def Target.DSN (t : Target) : String :=
  t.BaseDSN ++ t.Schema

/-- Method `Target.HostAndOptionalPort`. -/
def Target.HostAndOptionalPort (t : Target) : String :=
  if t.Port = 3306 then t.Host
  else Sprintf "%s:%d" [Arg.str t.Host, Arg.int t.Port]

/-- The five conditional assignments of `MergeCLIConfig` (lines 53 to 67). -/
def applyOverrides (t : Target) (cliConfig : ParsedGlobalFlags) : Target :=
  let t := if cliConfig.Host ≠ "" then { t with Host := cliConfig.Host } else t
  let t := if cliConfig.Port ≠ 0 then { t with Port := cliConfig.Port } else t
  let t := if cliConfig.User ≠ "" then { t with User := cliConfig.User } else t
  let t := if cliConfig.Password ≠ "" then { t with Password := cliConfig.Password } else t
  let t := if cliConfig.Schema ≠ "" then { t with Schema := cliConfig.Schema } else t
  t

/-- The defaulting part of `MergeCLIConfig` (lines 69 to 84). -/
def applyDefaults (t : Target) : Target :=
  let t := if t.User = "" then { t with User := "root" } else t
  let t := if t.Host = "" then { t with Host := "127.0.0.1" } else t
  if t.Port = 0 then
    let parts := SplitN t.Host ":" 2
    let t :=
      if parts.length > 1 then
        { t with Host := parts.getD 0 "", Port := (Atoi (parts.getD 1 "")).1 }
      else t
    if t.Port = 0 then { t with Port := 3306 } else t
  else t

/-- Method `(*Target).MergeCLIConfig`; `none` is a nil `cliConfig`. -/
def Target.MergeCLIConfig (t : Target) : Option ParsedGlobalFlags → Target
  | none => t
  | some cliConfig => applyDefaults (applyOverrides t cliConfig)

/-- The heap of `Target` objects, indexed by address. -/
abbrev Heap := Nat → Target

/-- Method `(*Target).Instance`, on the Target at address `p`. -/
def Instance (h : Heap) (w : Tengo) (p : Nat) : InstancePtr × Heap × Tengo :=
  if (h p).instance_ = none then
    let r := NewInstance w (h p).Driver (h p).BaseDSN
    (r.1, Function.update h p { h p with instance_ := r.1 }, r.2)
  else ((h p).instance_, h, w)

/-- The type `TargetList`, a slice of `*Target`. -/
abbrev TargetList := List Nat

/-- State of the loop of `SetInstances`. -/
structure SetInstancesState where
  heap : Heap
  tengo : Tengo
  dsnToInstance : String → InstancePtr

/-- One iteration of the loop of `SetInstances`, for the list element `p`. -/
def SetInstances.step (s : SetInstancesState) (p : Nat) : SetInstancesState :=
  let t := s.heap p
  let dsn := t.BaseDSN
  let s :=
    if s.dsnToInstance dsn = none then
      let r := NewInstance s.tengo t.Driver dsn
      { s with tengo := r.2, dsnToInstance := Function.update s.dsnToInstance dsn r.1 }
    else s
  { s with heap := Function.update s.heap p { t with instance_ := s.dsnToInstance dsn } }

/-- The loop of `SetInstances` from a given state. -/
def SetInstances.loop (s : SetInstancesState) (tl : TargetList) : SetInstancesState :=
  tl.foldl SetInstances.step s

/-- Method `TargetList.SetInstances`: the heap and the library state after the call. -/
def SetInstances (h : Heap) (w : Tengo) (tl : TargetList) : Heap × Tengo :=
  let s := SetInstances.loop { heap := h, tengo := w, dsnToInstance := fun _ => none } tl
  (s.heap, s.tengo)

/-- A `*pflag.FlagSet`, as far as the source uses it: the typed retrievals `GetString(name)`
and `GetInt(name)`, each giving a value and an error (`none` for a nil error). -/
structure FlagSet where
  GetString : String → String × Option String
  GetInt : String → Int × Option String

/-- Function `ParseGlobalFlags`: the record and the error, `none` for a nil error. Each
retrieval stores its value in the record before its error is tested. -/
def ParseGlobalFlags (flags : FlagSet) : ParsedGlobalFlags × Option String :=
  let parsed : ParsedGlobalFlags := ⟨"", "", 0, "", "", ""⟩
  let r := flags.GetString "dir"
  let parsed := { parsed with Path := r.1 }
  if r.2.isSome then (parsed, some "Invalid value for --dir option") else
  let r := flags.GetString "host"
  let parsed := { parsed with Host := r.1 }
  if r.2.isSome then (parsed, some "Invalid value for --host option") else
  let r := flags.GetInt "port"
  let parsed := { parsed with Port := r.1 }
  if r.2.isSome then (parsed, some "Invalid value for --port option") else
  let r := flags.GetString "user"
  let parsed := { parsed with User := r.1 }
  if r.2.isSome then (parsed, some "Invalid value for --user option") else
  let r := flags.GetString "password"
  let parsed := { parsed with Password := r.1 }
  if r.2.isSome then (parsed, some "Invalid value for --password option") else
  let r := flags.GetString "schema"
  let parsed := { parsed with Schema := r.1 }
  if r.2.isSome then (parsed, some "Invalid value for --schema option") else
  (parsed, none)

/-! ## Notions used to state the claims -/

/-- Whether the typed retrieval of the option `name` fails: `port` is read as an integer, every
other option as a string. -/
def retrievalFails (flags : FlagSet) (name : String) : Bool :=
  if name = "port" then (flags.GetInt name).2.isSome else (flags.GetString name).2.isSome

/-- The first option, in the order dir, host, port, user, password, schema, whose retrieval
fails. -/
def firstFailedOption (flags : FlagSet) : Option String :=
  ["dir", "host", "port", "user", "password", "schema"].find? (retrievalFails flags)

/-- The arguments `(driver, dsn)` with which the instance held by the Target at address `p` was
built, read from the record of the factory calls. -/
def instanceArgs (r : Heap × Tengo) (p : Nat) : Option (String × String) :=
  match (r.1 p).instance_ with
  | none => none
  | some k => r.2.calls[k]?

/-- The first Target of the list whose BaseDSN is `d`. -/
def firstWithDSN (h : Heap) (tl : TargetList) (d : String) : Option Nat :=
  tl.find? (fun q => decide ((h q).BaseDSN = d))

/-- The effective host of a merge: the override when non-empty, else the Target's own host when
non-empty, else `127.0.0.1`. -/
def effectiveHost (t : Target) (o : ParsedGlobalFlags) : String :=
  if o.Host ≠ "" then o.Host else if t.Host ≠ "" then t.Host else "127.0.0.1"

/-- The effective port of a merge: the override when non-zero, else the Target's own port. -/
def effectivePort (t : Target) (o : ParsedGlobalFlags) : Int :=
  if o.Port ≠ 0 then o.Port else t.Port

/-- Consistency of the map of the loop with the library state: two keys never hold the same
object, and every object in the map was built by a call already made. -/
structure MapOK (s : SetInstancesState) : Prop where
  inj : ∀ d e k, s.dsnToInstance d = some k → s.dsnToInstance e = some k → d = e
  bound : ∀ d k, s.dsnToInstance d = some k → k < s.tengo.calls.length

/-! ## Concrete inputs -/

/-- A heap with two Targets on the same server that differ in their Schema only. -/
def heapTwoSchemas : Heap := fun a =>
  if a = 0 then ⟨"h", 3306, "root", "p", "s1", "mysql", none⟩
  else ⟨"h", 3306, "root", "p", "s2", "mysql", none⟩

/-- A heap with two Targets that differ in their Driver only. -/
def heapTwoDrivers : Heap := fun a =>
  if a = 0 then ⟨"h", 3306, "root", "p", "s", "mysql", none⟩
  else ⟨"h", 3306, "root", "p", "s", "postgres", none⟩

/-- A heap with two Targets that differ in User and Password: user `a:b` without password, and
user `a` with password `b`. -/
def heapColonUser : Heap := fun a =>
  if a = 0 then ⟨"h", 3306, "a:b", "", "s", "mysql", none⟩
  else ⟨"h", 3306, "a", "b", "s", "mysql", none⟩

/-- A heap with two Targets that differ in their User. -/
def heapTwoUsers : Heap := fun a =>
  if a = 0 then ⟨"h", 3306, "root", "p", "s", "mysql", none⟩
  else ⟨"h", 3306, "admin", "p", "s", "mysql", none⟩

/-- A heap with three Targets: the first two differ in Schema only, the third has another
User. -/
def heapThree : Heap := fun a =>
  if a = 0 then ⟨"h", 3306, "root", "p", "s1", "mysql", none⟩
  else if a = 1 then ⟨"h", 3306, "root", "p", "s2", "mysql", none⟩
  else ⟨"h", 3306, "admin", "p", "s1", "mysql", none⟩

/-- A flag set in which every retrieval succeeds. -/
def flagsGood : FlagSet where
  GetString := fun name =>
    if name = "dir" then ("d", none) else if name = "host" then ("h", none)
    else if name = "user" then ("u", none) else if name = "password" then ("p", none)
    else if name = "schema" then ("s", none) else ("", some "flag accessed but not defined")
  GetInt := fun name =>
    if name = "port" then (3307, none) else (0, some "flag accessed but not defined")

/-- A flag set in which the retrievals of `port` and `schema` fail. -/
def flagsBadPort : FlagSet where
  GetString := fun name =>
    if name = "dir" then ("d", none) else if name = "host" then ("h", none)
    else if name = "user" then ("u", none) else if name = "password" then ("p", none)
    else ("", some "flag accessed but not defined")
  GetInt := fun _ => (0, some "trying to get int value of flag of type string")

/-- A heap with two Targets on the same server that already hold the instances 0 and 1 and
differ in Schema and Driver. -/
def heapHeld : Heap := fun a =>
  if a = 0 then ⟨"h", 3306, "root", "p", "s1", "mysql", some 0⟩
  else ⟨"h", 3306, "root", "p", "s2", "postgres", some 1⟩

/-- A library state in which two instances were built already. -/
def tengoTwoCalls : Tengo :=
  ⟨[("mysql", "root:p@tcp(h:3306)/"), ("postgres", "root:p@tcp(h:3306)/")]⟩

/-! ## Facts about the library models -/

theorem Index_colon_append (a b : List Char) (h : ':' ∉ a) :
    Index [':'] (a ++ ':' :: b) = some a.length := by
  induction a with
  | nil => simp [Index, List.isPrefixOf]
  | cons c a ih =>
    have hc2 : ¬ (':' = c) := fun e => h (List.mem_cons.mpr (Or.inl e))
    have ha : ':' ∉ a := fun e => h (List.mem_cons.mpr (Or.inr e))
    simp [Index, List.isPrefixOf, hc2, ih ha]

theorem Index_colon_none (a : List Char) (h : ':' ∉ a) : Index [':'] a = none := by
  induction a with
  | nil => simp [Index]
  | cons c a ih =>
    have hc2 : ¬ (':' = c) := fun e => h (List.mem_cons.mpr (Or.inl e))
    have ha : ':' ∉ a := fun e => h (List.mem_cons.mpr (Or.inr e))
    simp [Index, List.isPrefixOf, hc2, ih ha]

theorem SplitN_colon_append (a b : String) (h : ':' ∉ a.data) :
    SplitN (a ++ ":" ++ b) ":" 2 = [a, b] := by
  have hd : (a ++ ":" ++ b).data = a.data ++ ':' :: b.data := by
    simp [String.data_append]
  have hne : ¬ (":" = "") := by decide
  have hs : (":" : String).data = [':'] := rfl
  have hdrop : List.drop (a.data.length + 1) (a.data ++ ':' :: b.data) = b.data := by
    rw [List.drop_append]; rfl
  simp only [SplitN, hne, hs, hd, splitNChars, Index_colon_append _ _ h, if_false,
    List.map_cons, List.map_nil, List.length_singleton, hdrop]
  simp

theorem SplitN_no_colon (a : String) (h : ':' ∉ a.data) :
    SplitN a ":" 2 = [a] := by
  have hne : ¬ (":" = "") := by decide
  have hs : (":" : String).data = [':'] := rfl
  simp [SplitN, hne, hs, splitNChars, Index_colon_none _ h]

theorem formatInt_eq_toString (n : Int) : String.mk (formatInt n) = toString n := by
  cases n <;> rfl

theorem Sprintf_user_pass (u p : String) :
    Sprintf "%s:%s" [Arg.str u, Arg.str p] = u ++ ":" ++ p := by
  apply String.ext
  simp [Sprintf, sprintfChars, String.data_append]

theorem Sprintf_dsn (u h : String) (n : Int) :
    Sprintf "%s@tcp(%s:%d)/" [Arg.str u, Arg.str h, Arg.int n] =
      u ++ "@tcp(" ++ h ++ ":" ++ toString n ++ ")/" := by
  rw [← formatInt_eq_toString]
  apply String.ext
  simp [Sprintf, sprintfChars, String.data_append]

theorem Sprintf_host_port (h : String) (n : Int) :
    Sprintf "%s:%d" [Arg.str h, Arg.int n] = h ++ ":" ++ toString n := by
  rw [← formatInt_eq_toString]
  apply String.ext
  simp [Sprintf, sprintfChars, String.data_append]

/-! ## Facts about `MergeCLIConfig` -/

theorem exists_first_colon (s : List Char) (h : ':' ∈ s) :
    ∃ a b, s = a ++ ':' :: b ∧ ':' ∉ a := by
  induction s with
  | nil => simp at h
  | cons c s ih =>
    by_cases hc : c = ':'
    · exact ⟨[], s, by simp [hc], by simp⟩
    · rcases List.mem_cons.mp h with e | e
      · exact absurd e.symm hc
      · obtain ⟨a, b, hs, ha⟩ := ih e
        refine ⟨c :: a, b, by simp [hs], ?_⟩
        intro hm
        rcases List.mem_cons.mp hm with e2 | e2
        · exact hc e2.symm
        · exact ha e2

theorem exists_first_colon_string (s : String) (h : ':' ∈ s.data) :
    ∃ a b : String, s = a ++ ":" ++ b ∧ ':' ∉ a.data := by
  obtain ⟨a, b, hs, ha⟩ := exists_first_colon s.data h
  refine ⟨String.mk a, String.mk b, ?_, ha⟩
  apply String.ext
  simp [String.data_append, hs]

theorem applyOverrides_Host (t : Target) (o : ParsedGlobalFlags) :
    (applyOverrides t o).Host = if o.Host ≠ "" then o.Host else t.Host := by
  simp only [applyOverrides]; split_ifs <;> rfl

theorem applyOverrides_Port (t : Target) (o : ParsedGlobalFlags) :
    (applyOverrides t o).Port = if o.Port ≠ 0 then o.Port else t.Port := by
  simp only [applyOverrides]; split_ifs <;> rfl

theorem applyOverrides_User (t : Target) (o : ParsedGlobalFlags) :
    (applyOverrides t o).User = if o.User ≠ "" then o.User else t.User := by
  simp only [applyOverrides]; split_ifs <;> rfl

theorem applyOverrides_Password (t : Target) (o : ParsedGlobalFlags) :
    (applyOverrides t o).Password = if o.Password ≠ "" then o.Password else t.Password := by
  simp only [applyOverrides]; split_ifs <;> rfl

theorem applyOverrides_Schema (t : Target) (o : ParsedGlobalFlags) :
    (applyOverrides t o).Schema = if o.Schema ≠ "" then o.Schema else t.Schema := by
  simp only [applyOverrides]; split_ifs <;> rfl

theorem applyOverrides_Driver (t : Target) (o : ParsedGlobalFlags) :
    (applyOverrides t o).Driver = t.Driver := by
  simp only [applyOverrides]; split_ifs <;> rfl

theorem applyOverrides_instance (t : Target) (o : ParsedGlobalFlags) :
    (applyOverrides t o).instance_ = t.instance_ := by
  simp only [applyOverrides]; split_ifs <;> rfl

theorem applyDefaults_User (t : Target) :
    (applyDefaults t).User = if t.User = "" then "root" else t.User := by
  simp only [applyDefaults]; split_ifs <;> rfl

theorem applyDefaults_Password (t : Target) : (applyDefaults t).Password = t.Password := by
  simp only [applyDefaults]; split_ifs <;> rfl

theorem applyDefaults_Schema (t : Target) : (applyDefaults t).Schema = t.Schema := by
  simp only [applyDefaults]; split_ifs <;> rfl

theorem applyDefaults_Driver (t : Target) : (applyDefaults t).Driver = t.Driver := by
  simp only [applyDefaults]; split_ifs <;> rfl

theorem applyDefaults_instance (t : Target) : (applyDefaults t).instance_ = t.instance_ := by
  simp only [applyDefaults]; split_ifs <;> rfl

theorem applyDefaults_Port_ne_zero (t : Target) : (applyDefaults t).Port ≠ 0 := by
  simp only [applyDefaults]; split_ifs <;> simp_all

theorem applyDefaults_of_port (t : Target) (h : t.Port ≠ 0) :
    (applyDefaults t).Host = (if t.Host = "" then "127.0.0.1" else t.Host) ∧
      (applyDefaults t).Port = t.Port := by
  simp only [applyDefaults]; split_ifs <;> simp_all

theorem applyDefaults_of_colon (t : Target) (a b : String) (hp : t.Port = 0)
    (hh : t.Host = a ++ ":" ++ b) (ha : ':' ∉ a.data) :
    (applyDefaults t).Host = a ∧
      (applyDefaults t).Port = (if (Atoi b).1 = 0 then 3306 else (Atoi b).1) := by
  have hne : t.Host ≠ "" := by
    intro e
    have := congrArg String.data (hh.symm.trans e)
    simp [String.data_append] at this
  have hs := SplitN_colon_append a b ha
  simp only [applyDefaults]
  split_ifs <;> simp_all

theorem applyDefaults_no_colon (t : Target) (hp : t.Port = 0) (hn : ':' ∉ t.Host.data) :
    (applyDefaults t).Host = (if t.Host = "" then "127.0.0.1" else t.Host) ∧
      (applyDefaults t).Port = 3306 := by
  have hs := SplitN_no_colon t.Host hn
  have hd : SplitN "127.0.0.1" ":" 2 = ["127.0.0.1"] := by decide
  simp only [applyDefaults]
  split_ifs <;> simp_all

theorem atoiChars_syntax_value (s : List Char) (v : Int)
    (h : atoiChars s = (v, some NumError.ErrSyntax)) : v = 0 := by
  unfold atoiChars parseIntChars at h
  simp only at h
  generalize parseUintChars
    (if s.head? = some '+' ∨ s.head? = some '-' then s.tail else s) = r at h
  split_ifs at h
  · exact (congrArg Prod.fst h).symm
  · exact (congrArg Prod.fst h).symm
  · exact absurd (congrArg Prod.snd h) (by simp)
  · exact absurd (congrArg Prod.snd h) (by simp)
  · exact absurd (congrArg Prod.snd h) (by simp)
  · exact absurd (congrArg Prod.snd h) (by simp)

/-! ## Facts about `SetInstances` -/

theorem BaseDSN_congr (t u : Target) (hH : t.Host = u.Host) (hP : t.Port = u.Port)
    (hU : t.User = u.User) (hW : t.Password = u.Password) : t.BaseDSN = u.BaseDSN := by
  simp only [Target.BaseDSN, hH, hP, hU, hW]

theorem step_dsnToInstance (s : SetInstancesState) (p : Nat) :
    (SetInstances.step s p).dsnToInstance =
      (if s.dsnToInstance (s.heap p).BaseDSN = none then
        Function.update s.dsnToInstance (s.heap p).BaseDSN (some s.tengo.calls.length)
       else s.dsnToInstance) := by
  simp only [SetInstances.step, NewInstance]
  split_ifs <;> rfl

theorem step_calls (s : SetInstancesState) (p : Nat) :
    (SetInstances.step s p).tengo.calls =
      (if s.dsnToInstance (s.heap p).BaseDSN = none then
        s.tengo.calls ++ [((s.heap p).Driver, (s.heap p).BaseDSN)]
       else s.tengo.calls) := by
  simp only [SetInstances.step, NewInstance]
  split_ifs <;> rfl

theorem step_heap (s : SetInstancesState) (p : Nat) :
    (SetInstances.step s p).heap =
      Function.update s.heap p
        { s.heap p with
          instance_ := (SetInstances.step s p).dsnToInstance (s.heap p).BaseDSN } := by
  simp only [SetInstances.step, NewInstance]
  split_ifs <;> rfl

theorem step_heap_other (s : SetInstancesState) (p q : Nat) (h : q ≠ p) :
    (SetInstances.step s p).heap q = s.heap q := by
  rw [step_heap, Function.update_noteq h]

theorem step_heap_self (s : SetInstancesState) (p : Nat) :
    (SetInstances.step s p).heap p =
      { s.heap p with
        instance_ := (SetInstances.step s p).dsnToInstance (s.heap p).BaseDSN } := by
  rw [step_heap, Function.update_same]

theorem step_BaseDSN (s : SetInstancesState) (p q : Nat) :
    ((SetInstances.step s p).heap q).BaseDSN = (s.heap q).BaseDSN := by
  by_cases h : q = p
  · subst h
    rw [step_heap_self]
    rfl
  · rw [step_heap_other s p q h]

theorem step_map_self (s : SetInstancesState) (p : Nat) :
    (SetInstances.step s p).dsnToInstance (s.heap p).BaseDSN ≠ none := by
  rw [step_dsnToInstance]
  split_ifs with h
  · simp
  · exact h

theorem step_map_mono (s : SetInstancesState) (p : Nat) (d : String) (k : Nat)
    (h : s.dsnToInstance d = some k) : (SetInstances.step s p).dsnToInstance d = some k := by
  rw [step_dsnToInstance]
  split_ifs with h1
  · have hd : d ≠ (s.heap p).BaseDSN := by
      intro e
      rw [e, h1] at h
      exact Option.noConfusion h
    rw [Function.update_noteq hd, h]
  · exact h

theorem step_MapOK (s : SetInstancesState) (p : Nat) (hs : MapOK s) :
    MapOK (SetInstances.step s p) := by
  constructor
  · intro d e k hd he
    rw [step_dsnToInstance] at hd he
    split_ifs at hd he with h1
    · by_cases h2 : d = (s.heap p).BaseDSN <;> by_cases h3 : e = (s.heap p).BaseDSN
      · rw [h2, h3]
      · rw [h2, Function.update_same] at hd
        rw [Function.update_noteq h3] at he
        have := hs.bound e k he
        have hk : s.tengo.calls.length = k := Option.some.inj hd
        omega
      · rw [h3, Function.update_same] at he
        rw [Function.update_noteq h2] at hd
        have := hs.bound d k hd
        have hk : s.tengo.calls.length = k := Option.some.inj he
        omega
      · rw [Function.update_noteq h2] at hd
        rw [Function.update_noteq h3] at he
        exact hs.inj d e k hd he
    · exact hs.inj d e k hd he
  · intro d k hd
    rw [step_dsnToInstance] at hd
    rw [step_calls]
    split_ifs at hd ⊢ with h1
    · by_cases h2 : d = (s.heap p).BaseDSN
      · rw [h2, Function.update_same] at hd
        have hk : s.tengo.calls.length = k := Option.some.inj hd
        simp only [List.length_append, List.length_singleton]
        omega
      · rw [Function.update_noteq h2] at hd
        have := hs.bound d k hd
        simp only [List.length_append, List.length_singleton]
        omega
    · exact hs.bound d k hd

/-- What the loop of `SetInstances` establishes from a consistent state. -/
theorem loop_spec (tl : TargetList) (s : SetInstancesState) (hs : MapOK s) :
    MapOK (SetInstances.loop s tl) ∧
    (∀ d k, s.dsnToInstance d = some k → (SetInstances.loop s tl).dsnToInstance d = some k) ∧
    (∀ q, ((SetInstances.loop s tl).heap q).BaseDSN = (s.heap q).BaseDSN) ∧
    (∀ q, q ∉ tl → (SetInstances.loop s tl).heap q = s.heap q) ∧
    (∀ q, q ∈ tl → ∃ k, ((SetInstances.loop s tl).heap q).instance_ = some k ∧
      (SetInstances.loop s tl).dsnToInstance (s.heap q).BaseDSN = some k) := by
  induction tl generalizing s with
  | nil =>
    refine ⟨hs, fun _ _ h => h, fun _ => rfl, fun _ _ => rfl, ?_⟩
    intro q hq
    simp at hq
  | cons p tl ih =>
    obtain ⟨h1, h2, h3, h4, h5⟩ := ih (SetInstances.step s p) (step_MapOK s p hs)
    have hloop : SetInstances.loop s (p :: tl) = SetInstances.loop (SetInstances.step s p) tl :=
      rfl
    rw [hloop]
    refine ⟨h1, ?_, ?_, ?_, ?_⟩
    · intro d k hd
      exact h2 d k (step_map_mono s p d k hd)
    · intro q
      rw [h3 q, step_BaseDSN]
    · intro q hq
      have hqp : q ≠ p := fun e => hq (List.mem_cons.mpr (Or.inl e))
      have hqt : q ∉ tl := fun e => hq (List.mem_cons.mpr (Or.inr e))
      rw [h4 q hqt, step_heap_other s p q hqp]
    · intro q hq
      by_cases hqt : q ∈ tl
      · obtain ⟨k, hk1, hk2⟩ := h5 q hqt
        rw [step_BaseDSN] at hk2
        exact ⟨k, hk1, hk2⟩
      · have hqp : q = p := by
          rcases List.mem_cons.mp hq with e | e
          · exact e
          · exact absurd e hqt
        subst hqp
        cases hk : (SetInstances.step s q).dsnToInstance (s.heap q).BaseDSN with
        | none => exact absurd hk (step_map_self s q)
        | some k =>
          refine ⟨k, ?_, h2 _ k hk⟩
          rw [h4 q hqt, step_heap_self, hk]

/-- After `SetInstances`, every Target of the list holds a non-nil instance, and two Targets of
the list hold the same instance exactly when their BaseDSN strings are equal. -/
theorem SetInstances_shared_iff (h : Heap) (w : Tengo) (tl : TargetList) (p q : Nat)
    (hp : p ∈ tl) (hq : q ∈ tl) :
    ((SetInstances h w tl).1 p).instance_ ≠ none ∧
    ((SetInstances h w tl).1 q).instance_ ≠ none ∧
    (((SetInstances h w tl).1 p).instance_ = ((SetInstances h w tl).1 q).instance_ ↔
      (h p).BaseDSN = (h q).BaseDSN) := by
  have h0 : MapOK { heap := h, tengo := w, dsnToInstance := fun _ => none } :=
    ⟨fun _ _ _ hd _ => Option.noConfusion hd, fun _ _ hd => Option.noConfusion hd⟩
  obtain ⟨h1, -, -, -, h5⟩ := loop_spec tl _ h0
  obtain ⟨k, hk1, hk2⟩ := h5 p hp
  obtain ⟨j, hj1, hj2⟩ := h5 q hq
  show ((SetInstances.loop _ tl).heap p).instance_ ≠ none ∧
    ((SetInstances.loop _ tl).heap q).instance_ ≠ none ∧
    (((SetInstances.loop _ tl).heap p).instance_ = ((SetInstances.loop _ tl).heap q).instance_ ↔
      (h p).BaseDSN = (h q).BaseDSN)
  rw [hk1, hj1]
  refine ⟨by simp, by simp, ?_⟩
  constructor
  · intro e
    have e2 : k = j := Option.some.inj e
    subst e2
    exact h1.inj _ _ k hk2 hj2
  · intro e
    have e1 : (h p).BaseDSN = (h q).BaseDSN := e
    have hk3 := hk2
    simp only at hk3 hj2
    rw [e1] at hk3
    rw [← hk3, ← hj2]

/-! ## The claims on `MergeCLIConfig` -/

/-- C1 (as stated, refuted): with nil overrides an unresolved Target stays unresolved, its Host
and User empty and its Port zero; and with present overrides a host that begins with a colon is
split into an empty Host. -/
theorem MergeCLIConfig_resolved_fails :
    (Target.MergeCLIConfig ⟨"", 0, "", "", "", "", none⟩ none).Host = "" ∧
    (Target.MergeCLIConfig ⟨"", 0, "", "", "", "", none⟩ none).Port = 0 ∧
    (Target.MergeCLIConfig ⟨"", 0, "", "", "", "", none⟩ none).User = "" ∧
    (Target.MergeCLIConfig ⟨":3307", 0, "", "", "", "", none⟩
      (some ⟨"", "", 0, "", "", ""⟩)).Host = "" := by
  decide

/-- C1 (amended): for every Target and every present overrides record, after MergeCLIConfig the
User is non-empty and the Port is non-zero, and the Host is non-empty provided the port after
override application is non-zero or the host after override application does not begin with a
colon. -/
theorem MergeCLIConfig_resolved (t : Target) (o : ParsedGlobalFlags) :
    (t.MergeCLIConfig (some o)).User ≠ "" ∧
    (t.MergeCLIConfig (some o)).Port ≠ 0 ∧
    (((if o.Port ≠ 0 then o.Port else t.Port) ≠ 0 ∨
        (if o.Host ≠ "" then o.Host else t.Host).data.head? ≠ some ':') →
      (t.MergeCLIConfig (some o)).Host ≠ "") := by
  have hnz : ("127.0.0.1" : String) ≠ "" := by decide
  have hr : ("root" : String) ≠ "" := by decide
  refine ⟨?_, applyDefaults_Port_ne_zero _, ?_⟩
  · show (applyDefaults (applyOverrides t o)).User ≠ ""
    rw [applyDefaults_User]
    split_ifs with h
    · exact hr
    · exact h
  · rw [← applyOverrides_Port, ← applyOverrides_Host]
    show _ → (applyDefaults (applyOverrides t o)).Host ≠ ""
    generalize applyOverrides t o = u
    intro h
    by_cases hp : u.Port = 0
    · by_cases hc : ':' ∈ u.Host.data
      · obtain ⟨a, b, hab, ha⟩ := exists_first_colon_string u.Host hc
        rw [(applyDefaults_of_colon u a b hp hab ha).1]
        intro e
        rcases h with h | h
        · exact h hp
        · apply h
          rw [hab, e]
          simp [String.data_append]
      · rw [(applyDefaults_no_colon u hp hc).1]
        split_ifs with h1
        · exact hnz
        · exact h1
    · rw [(applyDefaults_of_port u hp).1]
      split_ifs with h1
      · exact hnz
      · exact h1

/-- Witness of `MergeCLIConfig_resolved` (C1) on the Target `db1:3307` with empty overrides. -/
theorem MergeCLIConfig_resolved_witness :
    (Target.MergeCLIConfig ⟨"db1:3307", 0, "", "", "", "", none⟩
      (some ⟨"", "", 0, "", "", ""⟩)).User ≠ "" ∧
    (Target.MergeCLIConfig ⟨"db1:3307", 0, "", "", "", "", none⟩
      (some ⟨"", "", 0, "", "", ""⟩)).Port ≠ 0 ∧
    (Target.MergeCLIConfig ⟨"db1:3307", 0, "", "", "", "", none⟩
      (some ⟨"", "", 0, "", "", ""⟩)).Host ≠ "" :=
  ⟨(MergeCLIConfig_resolved ⟨"db1:3307", 0, "", "", "", "", none⟩ ⟨"", "", 0, "", "", ""⟩).1,
   (MergeCLIConfig_resolved ⟨"db1:3307", 0, "", "", "", "", none⟩ ⟨"", "", 0, "", "", ""⟩).2.1,
   (MergeCLIConfig_resolved ⟨"db1:3307", 0, "", "", "", "", none⟩ ⟨"", "", 0, "", "", ""⟩).2.2
     (Or.inr (by decide))⟩

/-- C4: override precedence of MergeCLIConfig with present overrides. Password and Schema are
the override when it is non-empty and the Target's own value otherwise; User is the override,
else the Target's own value, else `root`; Port is the override when it is non-zero. A
zero-valued override leaves a non-zero value of these four fields as it was. -/
theorem MergeCLIConfig_precedence (t : Target) (o : ParsedGlobalFlags) :
    (t.MergeCLIConfig (some o)).Password = (if o.Password ≠ "" then o.Password else t.Password) ∧
    (t.MergeCLIConfig (some o)).Schema = (if o.Schema ≠ "" then o.Schema else t.Schema) ∧
    (t.MergeCLIConfig (some o)).User =
      (if o.User ≠ "" then o.User else if t.User ≠ "" then t.User else "root") ∧
    (o.Port ≠ 0 → (t.MergeCLIConfig (some o)).Port = o.Port) ∧
    (o.Password = "" → (t.MergeCLIConfig (some o)).Password = t.Password) ∧
    (o.Schema = "" → (t.MergeCLIConfig (some o)).Schema = t.Schema) ∧
    (o.User = "" → t.User ≠ "" → (t.MergeCLIConfig (some o)).User = t.User) ∧
    (o.Port = 0 → t.Port ≠ 0 → (t.MergeCLIConfig (some o)).Port = t.Port) := by
  have hP : (t.MergeCLIConfig (some o)).Password =
      (if o.Password ≠ "" then o.Password else t.Password) := by
    show (applyDefaults (applyOverrides t o)).Password = _
    rw [applyDefaults_Password, applyOverrides_Password]
  have hS : (t.MergeCLIConfig (some o)).Schema =
      (if o.Schema ≠ "" then o.Schema else t.Schema) := by
    show (applyDefaults (applyOverrides t o)).Schema = _
    rw [applyDefaults_Schema, applyOverrides_Schema]
  have hU : (t.MergeCLIConfig (some o)).User =
      (if o.User ≠ "" then o.User else if t.User ≠ "" then t.User else "root") := by
    show (applyDefaults (applyOverrides t o)).User = _
    rw [applyDefaults_User, applyOverrides_User]
    split_ifs <;> simp_all
  have hPort : ∀ p : Int, p ≠ 0 → (if o.Port ≠ 0 then o.Port else t.Port) = p →
      (t.MergeCLIConfig (some o)).Port = p := by
    intro p hp he
    show (applyDefaults (applyOverrides t o)).Port = p
    rw [← applyOverrides_Port] at he
    rw [(applyDefaults_of_port _ (by rw [he]; exact hp)).2, he]
  refine ⟨hP, hS, hU, ?_, ?_, ?_, ?_, ?_⟩
  · intro h
    exact hPort o.Port h (by simp [h])
  · intro h
    rw [hP]; simp [h]
  · intro h
    rw [hS]; simp [h]
  · intro h h2
    rw [hU]; simp [h, h2]
  · intro h h2
    exact hPort t.Port h2 (by simp [h])

/-- Witness of `MergeCLIConfig_precedence` (C4): the override port 3307 wins over the file port,
and the empty override password, schema and user keep the file values. -/
theorem MergeCLIConfig_precedence_witness :
    (Target.MergeCLIConfig ⟨"h", 3306, "u", "p", "s", "mysql", none⟩
      (some ⟨"", "", 3307, "", "", ""⟩)).Port = 3307 ∧
    (Target.MergeCLIConfig ⟨"h", 3306, "u", "p", "s", "mysql", none⟩
      (some ⟨"", "", 3307, "", "", ""⟩)).Password = "p" ∧
    (Target.MergeCLIConfig ⟨"h", 3306, "u", "p", "s", "mysql", none⟩
      (some ⟨"", "", 3307, "", "", ""⟩)).Schema = "s" ∧
    (Target.MergeCLIConfig ⟨"h", 3306, "u", "p", "s", "mysql", none⟩
      (some ⟨"", "", 3307, "", "", ""⟩)).User = "u" ∧
    (Target.MergeCLIConfig ⟨"h", 3306, "u", "p", "s", "mysql", none⟩
      (some ⟨"", "", 0, "", "", ""⟩)).Port = 3306 :=
  ⟨(MergeCLIConfig_precedence ⟨"h", 3306, "u", "p", "s", "mysql", none⟩
      ⟨"", "", 3307, "", "", ""⟩).2.2.2.1 (by decide),
   (MergeCLIConfig_precedence ⟨"h", 3306, "u", "p", "s", "mysql", none⟩
      ⟨"", "", 3307, "", "", ""⟩).2.2.2.2.1 rfl,
   (MergeCLIConfig_precedence ⟨"h", 3306, "u", "p", "s", "mysql", none⟩
      ⟨"", "", 3307, "", "", ""⟩).2.2.2.2.2.1 rfl,
   (MergeCLIConfig_precedence ⟨"h", 3306, "u", "p", "s", "mysql", none⟩
      ⟨"", "", 3307, "", "", ""⟩).2.2.2.2.2.2.1 rfl (by decide),
   (MergeCLIConfig_precedence ⟨"h", 3306, "u", "p", "s", "mysql", none⟩
      ⟨"", "", 0, "", "", ""⟩).2.2.2.2.2.2.2 rfl (by decide)⟩

/-- C5: MergeCLIConfig with nil overrides returns the Target as it was, every field included. -/
theorem MergeCLIConfig_nil (t : Target) : t.MergeCLIConfig none = t :=
  rfl

/-- C6 (as stated, refuted): on the Target with every field empty, present all-empty overrides
give Host `127.0.0.1`, Port 3306 and User `root`, while nil overrides leave the Target as it was,
so the two results differ and no defaulting happens in the nil case. -/
theorem MergeCLIConfig_empty_vs_nil_fails :
    Target.MergeCLIConfig ⟨"", 0, "", "", "", "", none⟩ (some ⟨"", "", 0, "", "", ""⟩) =
      ⟨"127.0.0.1", 3306, "root", "", "", "", none⟩ ∧
    Target.MergeCLIConfig ⟨"", 0, "", "", "", "", none⟩ none = ⟨"", 0, "", "", "", "", none⟩ ∧
    Target.MergeCLIConfig ⟨"", 0, "", "", "", "", none⟩ (some ⟨"", "", 0, "", "", ""⟩) ≠
      Target.MergeCLIConfig ⟨"", 0, "", "", "", "", none⟩ none := by
  decide

/-- C6 (amended): with present overrides whose five mergeable fields are all empty or zero,
MergeCLIConfig keeps Password, Schema, Driver and the instance and applies the defaulting: an
empty User becomes `root`; with a non-zero Port the Port is kept and an empty Host becomes
`127.0.0.1`; with Port 0 and a host without colon the Port becomes 3306 and an empty Host
becomes `127.0.0.1`; with Port 0 and a Host `hostPart:portPart` the Host becomes `hostPart` and
the Port becomes the number `n` parsed from `portPart`, or 3306 when `n` is 0 or when the parse
fails with a syntax error. With nil overrides the Target stays as it was. The two results are
equal exactly when the Target already has a non-empty User, a non-empty Host and a non-zero
Port. -/
theorem MergeCLIConfig_empty_vs_nil (t : Target) (path : String) :
    (t.MergeCLIConfig (some ⟨path, "", 0, "", "", ""⟩)).User =
      (if t.User = "" then "root" else t.User) ∧
    (t.MergeCLIConfig (some ⟨path, "", 0, "", "", ""⟩)).Password = t.Password ∧
    (t.MergeCLIConfig (some ⟨path, "", 0, "", "", ""⟩)).Schema = t.Schema ∧
    (t.MergeCLIConfig (some ⟨path, "", 0, "", "", ""⟩)).Driver = t.Driver ∧
    (t.MergeCLIConfig (some ⟨path, "", 0, "", "", ""⟩)).instance_ = t.instance_ ∧
    (t.Port ≠ 0 →
      (t.MergeCLIConfig (some ⟨path, "", 0, "", "", ""⟩)).Port = t.Port ∧
      (t.MergeCLIConfig (some ⟨path, "", 0, "", "", ""⟩)).Host =
        (if t.Host = "" then "127.0.0.1" else t.Host)) ∧
    (t.Port = 0 → ':' ∉ t.Host.data →
      (t.MergeCLIConfig (some ⟨path, "", 0, "", "", ""⟩)).Port = 3306 ∧
      (t.MergeCLIConfig (some ⟨path, "", 0, "", "", ""⟩)).Host =
        (if t.Host = "" then "127.0.0.1" else t.Host)) ∧
    (∀ (hostPart portPart : String) (n : Int), t.Port = 0 →
      t.Host = hostPart ++ ":" ++ portPart → ':' ∉ hostPart.data →
      Atoi portPart = (n, none) →
      (t.MergeCLIConfig (some ⟨path, "", 0, "", "", ""⟩)).Host = hostPart ∧
      (t.MergeCLIConfig (some ⟨path, "", 0, "", "", ""⟩)).Port = (if n ≠ 0 then n else 3306)) ∧
    (∀ (hostPart portPart : String) (v : Int), t.Port = 0 →
      t.Host = hostPart ++ ":" ++ portPart → ':' ∉ hostPart.data →
      Atoi portPart = (v, some NumError.ErrSyntax) →
      (t.MergeCLIConfig (some ⟨path, "", 0, "", "", ""⟩)).Host = hostPart ∧
      (t.MergeCLIConfig (some ⟨path, "", 0, "", "", ""⟩)).Port = 3306) ∧
    t.MergeCLIConfig none = t ∧
    (t.MergeCLIConfig (some ⟨path, "", 0, "", "", ""⟩) = t.MergeCLIConfig none ↔
      (t.User ≠ "" ∧ t.Host ≠ "" ∧ t.Port ≠ 0)) := by
  have h1 : t.MergeCLIConfig (some ⟨path, "", 0, "", "", ""⟩) = applyDefaults t := by
    show applyDefaults (applyOverrides t ⟨path, "", 0, "", "", ""⟩) = applyDefaults t
    simp [applyOverrides]
  rw [h1]
  refine ⟨applyDefaults_User t, applyDefaults_Password t, applyDefaults_Schema t,
    applyDefaults_Driver t, applyDefaults_instance t, ?_, ?_, ?_, ?_, rfl, ?_⟩
  · intro hp
    exact ⟨(applyDefaults_of_port t hp).2, (applyDefaults_of_port t hp).1⟩
  · intro hp hn
    exact ⟨(applyDefaults_no_colon t hp hn).2, (applyDefaults_no_colon t hp hn).1⟩
  · intro a b n hp hh ha hparse
    have h := applyDefaults_of_colon t a b hp hh ha
    refine ⟨h.1, ?_⟩
    rw [h.2, hparse]
    split_ifs <;> simp_all
  · intro a b v hp hh ha hparse
    have h := applyDefaults_of_colon t a b hp hh ha
    have hv : v = 0 := atoiChars_syntax_value b.data v hparse
    refine ⟨h.1, ?_⟩
    rw [h.2, hparse, hv]
    simp
  · show applyDefaults t = t ↔ _
    constructor
    · intro h
      have hport : t.Port ≠ 0 := by
        have := applyDefaults_Port_ne_zero t
        rwa [h] at this
      have huser : t.User ≠ "" := by
        have := applyDefaults_User t
        rw [h] at this
        intro e
        rw [if_pos e, e] at this
        exact absurd this (by decide)
      have hhost : t.Host ≠ "" := by
        have := (applyDefaults_of_port t hport).1
        rw [h] at this
        intro e
        rw [if_pos e, e] at this
        exact absurd this (by decide)
      exact ⟨huser, hhost, hport⟩
    · rintro ⟨hu, hh, hp⟩
      simp [applyDefaults, hu, hh, hp]

/-- Witness of `MergeCLIConfig_empty_vs_nil` (C6), with all-empty overrides: the host
`db1:3307` with port 0 gives `db1` and 3307; the host `db1:xyz` with port 0 gives `db1` and
3306; the empty host with port 0 gives 3306 and `127.0.0.1`; the host `h` with port 3307 is
kept. -/
theorem MergeCLIConfig_empty_vs_nil_witness :
    ((Target.MergeCLIConfig ⟨"db1:3307", 0, "", "", "", "", none⟩
        (some ⟨"", "", 0, "", "", ""⟩)).Host = "db1" ∧
      (Target.MergeCLIConfig ⟨"db1:3307", 0, "", "", "", "", none⟩
        (some ⟨"", "", 0, "", "", ""⟩)).Port = 3307) ∧
    ((Target.MergeCLIConfig ⟨"db1:xyz", 0, "", "", "", "", none⟩
        (some ⟨"", "", 0, "", "", ""⟩)).Host = "db1" ∧
      (Target.MergeCLIConfig ⟨"db1:xyz", 0, "", "", "", "", none⟩
        (some ⟨"", "", 0, "", "", ""⟩)).Port = 3306) ∧
    ((Target.MergeCLIConfig ⟨"", 0, "", "", "", "", none⟩
        (some ⟨"", "", 0, "", "", ""⟩)).Port = 3306 ∧
      (Target.MergeCLIConfig ⟨"", 0, "", "", "", "", none⟩
        (some ⟨"", "", 0, "", "", ""⟩)).Host = "127.0.0.1") ∧
    ((Target.MergeCLIConfig ⟨"h", 3307, "", "", "", "", none⟩
        (some ⟨"", "", 0, "", "", ""⟩)).Port = 3307 ∧
      (Target.MergeCLIConfig ⟨"h", 3307, "", "", "", "", none⟩
        (some ⟨"", "", 0, "", "", ""⟩)).Host = "h") :=
  ⟨(MergeCLIConfig_empty_vs_nil ⟨"db1:3307", 0, "", "", "", "", none⟩ "").2.2.2.2.2.2.2.1
      "db1" "3307" 3307 rfl (by decide) (by decide) (by decide),
   (MergeCLIConfig_empty_vs_nil ⟨"db1:xyz", 0, "", "", "", "", none⟩ "").2.2.2.2.2.2.2.2.1
      "db1" "xyz" 0 rfl (by decide) (by decide) (by decide),
   (MergeCLIConfig_empty_vs_nil ⟨"", 0, "", "", "", "", none⟩ "").2.2.2.2.2.2.1
      rfl (by decide),
   (MergeCLIConfig_empty_vs_nil ⟨"h", 3307, "", "", "", "", none⟩ "").2.2.2.2.2.1
      (by decide)⟩

/-- C7: embedded port extraction. When the port after override application is 0 and the host
after override application is `hostPart ++ ":" ++ portPart`, `hostPart` without a colon, and
`strconv.Atoi` parses `portPart` without error as `n`, MergeCLIConfig leaves Host equal to
`hostPart` and Port equal to `n`, or to 3306 when `n` is 0. -/
theorem MergeCLIConfig_embedded_port (t : Target) (o : ParsedGlobalFlags)
    (hostPart portPart : String) (n : Int)
    (hport : (if o.Port ≠ 0 then o.Port else t.Port) = 0)
    (hhost : (if o.Host ≠ "" then o.Host else t.Host) = hostPart ++ ":" ++ portPart)
    (hcolon : ':' ∉ hostPart.data)
    (hparse : Atoi portPart = (n, none)) :
    (t.MergeCLIConfig (some o)).Host = hostPart ∧
    (t.MergeCLIConfig (some o)).Port = (if n ≠ 0 then n else 3306) := by
  rw [← applyOverrides_Port] at hport
  rw [← applyOverrides_Host] at hhost
  have h := applyDefaults_of_colon (applyOverrides t o) hostPart portPart hport hhost hcolon
  refine ⟨h.1, ?_⟩
  show (applyDefaults (applyOverrides t o)).Port = _
  rw [h.2, hparse]
  split_ifs <;> simp_all

/-- Witness of `MergeCLIConfig_embedded_port` (C7): Host `db1:3307` with Port 0 and empty
overrides gives Host `db1` and Port 3307. -/
theorem MergeCLIConfig_embedded_port_witness :
    (Target.MergeCLIConfig ⟨"db1:3307", 0, "", "", "", "", none⟩
      (some ⟨"", "", 0, "", "", ""⟩)).Host = "db1" ∧
    (Target.MergeCLIConfig ⟨"db1:3307", 0, "", "", "", "", none⟩
      (some ⟨"", "", 0, "", "", ""⟩)).Port = 3307 :=
  MergeCLIConfig_embedded_port ⟨"db1:3307", 0, "", "", "", "", none⟩ ⟨"", "", 0, "", "", ""⟩
    "db1" "3307" 3307 (by decide) (by decide) (by decide) (by decide)

/-- The part of C8 that the code fulfils: when `strconv.Atoi` rejects the embedded port with a
syntax error, MergeCLIConfig leaves Host equal to `hostPart` and Port equal to 3306. -/
theorem MergeCLIConfig_syntax_error (t : Target) (o : ParsedGlobalFlags)
    (hostPart portPart : String) (v : Int)
    (hport : (if o.Port ≠ 0 then o.Port else t.Port) = 0)
    (hhost : (if o.Host ≠ "" then o.Host else t.Host) = hostPart ++ ":" ++ portPart)
    (hcolon : ':' ∉ hostPart.data)
    (hparse : Atoi portPart = (v, some NumError.ErrSyntax)) :
    (t.MergeCLIConfig (some o)).Host = hostPart ∧ (t.MergeCLIConfig (some o)).Port = 3306 := by
  rw [← applyOverrides_Port] at hport
  rw [← applyOverrides_Host] at hhost
  have h := applyDefaults_of_colon (applyOverrides t o) hostPart portPart hport hhost hcolon
  have hv : v = 0 := atoiChars_syntax_value portPart.data v hparse
  refine ⟨h.1, ?_⟩
  show (applyDefaults (applyOverrides t o)).Port = _
  rw [h.2, hparse, hv]
  simp

/-- Instance of `MergeCLIConfig_syntax_error`: Host `db1:xyz` with Port 0 and empty overrides
gives Host `db1` and Port 3306. -/
theorem MergeCLIConfig_syntax_error_witness :
    (Target.MergeCLIConfig ⟨"db1:xyz", 0, "", "", "", "", none⟩
      (some ⟨"", "", 0, "", "", ""⟩)).Host = "db1" ∧
    (Target.MergeCLIConfig ⟨"db1:xyz", 0, "", "", "", "", none⟩
      (some ⟨"", "", 0, "", "", ""⟩)).Port = 3306 :=
  MergeCLIConfig_syntax_error ⟨"db1:xyz", 0, "", "", "", "", none⟩ ⟨"", "", 0, "", "", ""⟩
    "db1" "xyz" 0 (by decide) (by decide) (by decide) (by decide)

/-- C8 (the code at the failing input): `strconv.Atoi` fails on `99999999999999999999` with a
range error and the value `9223372036854775807`; on the Target with Host
`db1:99999999999999999999` and Port 0, with empty overrides, MergeCLIConfig keeps that value as
the Port instead of falling back to 3306. -/
theorem MergeCLIConfig_range_error :
    Atoi "99999999999999999999" = (9223372036854775807, some NumError.ErrRange) ∧
    Target.MergeCLIConfig ⟨"db1:99999999999999999999", 0, "", "", "", "", none⟩
      (some ⟨"", "", 0, "", "", ""⟩) =
      ⟨"db1", 9223372036854775807, "root", "", "", "", none⟩ := by
  decide

/-- C9: defaults. For a Target with empty Host, zero Port and empty User, MergeCLIConfig with
overrides whose host and user are empty and whose port is zero gives Host `127.0.0.1`, Port 3306
and User `root`. -/
theorem MergeCLIConfig_defaults (t : Target) (o : ParsedGlobalFlags)
    (hH : t.Host = "") (hP : t.Port = 0) (hU : t.User = "")
    (hoH : o.Host = "") (hoP : o.Port = 0) (hoU : o.User = "") :
    (t.MergeCLIConfig (some o)).Host = "127.0.0.1" ∧
    (t.MergeCLIConfig (some o)).Port = 3306 ∧
    (t.MergeCLIConfig (some o)).User = "root" := by
  have h1 : (applyOverrides t o).Host = "" := by rw [applyOverrides_Host]; simp [hoH, hH]
  have h2 : (applyOverrides t o).Port = 0 := by rw [applyOverrides_Port]; simp [hoP, hP]
  have h3 : (applyOverrides t o).User = "" := by rw [applyOverrides_User]; simp [hoU, hU]
  have hn : ':' ∉ (applyOverrides t o).Host.data := by rw [h1]; decide
  have h := applyDefaults_no_colon (applyOverrides t o) h2 hn
  refine ⟨?_, h.2, ?_⟩
  · show (applyDefaults (applyOverrides t o)).Host = _
    rw [h.1, if_pos h1]
  · show (applyDefaults (applyOverrides t o)).User = _
    rw [applyDefaults_User, if_pos h3]

/-- Witness of `MergeCLIConfig_defaults` (C9) on the Target with every field empty. -/
theorem MergeCLIConfig_defaults_witness :
    (Target.MergeCLIConfig ⟨"", 0, "", "", "", "", none⟩
      (some ⟨"", "", 0, "", "", ""⟩)).Host = "127.0.0.1" ∧
    (Target.MergeCLIConfig ⟨"", 0, "", "", "", "", none⟩
      (some ⟨"", "", 0, "", "", ""⟩)).Port = 3306 ∧
    (Target.MergeCLIConfig ⟨"", 0, "", "", "", "", none⟩
      (some ⟨"", "", 0, "", "", ""⟩)).User = "root" :=
  MergeCLIConfig_defaults ⟨"", 0, "", "", "", "", none⟩ ⟨"", "", 0, "", "", ""⟩
    rfl rfl rfl rfl rfl rfl

/-! ## The claims on the connection strings -/

/-- C10: BaseDSN is `User@tcp(Host:Port)/` when the Password is empty and
`User:Password@tcp(Host:Port)/` otherwise, the Port in decimal; it does not depend on the
Schema; and it gives `root@tcp(h:3306)/` and `root:p@tcp(h:3306)/` on the two examples. -/
theorem BaseDSN_format (t : Target) (schema : String) :
    t.BaseDSN =
      (if t.Password = "" then t.User ++ "@tcp(" ++ t.Host ++ ":" ++ toString t.Port ++ ")/"
       else t.User ++ ":" ++ t.Password ++ "@tcp(" ++ t.Host ++ ":" ++ toString t.Port ++ ")/") ∧
    Target.BaseDSN { t with Schema := schema } = t.BaseDSN ∧
    Target.BaseDSN ⟨"h", 3306, "root", "", t.Schema, t.Driver, t.instance_⟩ =
      "root@tcp(h:3306)/" ∧
    Target.BaseDSN ⟨"h", 3306, "root", "p", t.Schema, t.Driver, t.instance_⟩ =
      "root:p@tcp(h:3306)/" := by
  refine ⟨?_, rfl, rfl, rfl⟩
  simp only [Target.BaseDSN, Sprintf_dsn, Sprintf_user_pass]
  split_ifs <;> rfl

/-! ## The claims on `SetInstances` -/

/-- C2: two Targets of the list with identical Driver, Host, Port, User and Password hold, after
SetInstances, the identical instance object, which is not nil; their Schema plays no role. -/
theorem SetInstances_same_server (h : Heap) (w : Tengo) (tl : TargetList) (p q : Nat)
    (hp : p ∈ tl) (hq : q ∈ tl)
    (_hD : (h p).Driver = (h q).Driver) (hH : (h p).Host = (h q).Host)
    (hP : (h p).Port = (h q).Port) (hU : (h p).User = (h q).User)
    (hW : (h p).Password = (h q).Password) :
    ((SetInstances h w tl).1 p).instance_ = ((SetInstances h w tl).1 q).instance_ ∧
    ((SetInstances h w tl).1 p).instance_ ≠ none := by
  have hs := SetInstances_shared_iff h w tl p q hp hq
  exact ⟨hs.2.2.mpr (BaseDSN_congr _ _ hH hP hU hW), hs.1⟩

/-- Witness of `SetInstances_same_server` (C2): two Targets that differ in Schema only. -/
theorem SetInstances_same_server_witness :
    ((SetInstances heapTwoSchemas ⟨[]⟩ [0, 1]).1 0).instance_ =
      ((SetInstances heapTwoSchemas ⟨[]⟩ [0, 1]).1 1).instance_ ∧
    ((SetInstances heapTwoSchemas ⟨[]⟩ [0, 1]).1 0).instance_ ≠ none :=
  SetInstances_same_server heapTwoSchemas ⟨[]⟩ [0, 1] 0 1 (by decide) (by decide)
    rfl rfl rfl rfl rfl

/-- C3 (as stated, refuted): two Targets that differ in Driver only hold the same instance after
SetInstances; so do the Target with user `a:b` and no password and the Target with user `a` and
password `b`, which differ in User and Password. -/
theorem SetInstances_distinct_fails :
    (heapTwoDrivers 0).Driver ≠ (heapTwoDrivers 1).Driver ∧
    ((SetInstances heapTwoDrivers ⟨[]⟩ [0, 1]).1 0).instance_ = some 0 ∧
    ((SetInstances heapTwoDrivers ⟨[]⟩ [0, 1]).1 1).instance_ = some 0 ∧
    (heapColonUser 0).User ≠ (heapColonUser 1).User ∧
    ((SetInstances heapColonUser ⟨[]⟩ [0, 1]).1 0).instance_ = some 0 ∧
    ((SetInstances heapColonUser ⟨[]⟩ [0, 1]).1 1).instance_ = some 0 := by
  decide

/-- C3 (amended): two Targets of the list whose BaseDSN strings differ hold, after SetInstances,
two distinct instance objects, neither of them nil. -/
theorem SetInstances_distinct (h : Heap) (w : Tengo) (tl : TargetList) (p q : Nat)
    (hp : p ∈ tl) (hq : q ∈ tl) (hne : (h p).BaseDSN ≠ (h q).BaseDSN) :
    ((SetInstances h w tl).1 p).instance_ ≠ ((SetInstances h w tl).1 q).instance_ ∧
    ((SetInstances h w tl).1 p).instance_ ≠ none ∧
    ((SetInstances h w tl).1 q).instance_ ≠ none := by
  have hs := SetInstances_shared_iff h w tl p q hp hq
  exact ⟨fun e => hne (hs.2.2.mp e), hs.1, hs.2.1⟩

/-- Witness of `SetInstances_distinct` (C3): two Targets that differ in their User. -/
theorem SetInstances_distinct_witness :
    ((SetInstances heapTwoUsers ⟨[]⟩ [0, 1]).1 0).instance_ ≠
      ((SetInstances heapTwoUsers ⟨[]⟩ [0, 1]).1 1).instance_ ∧
    ((SetInstances heapTwoUsers ⟨[]⟩ [0, 1]).1 0).instance_ ≠ none ∧
    ((SetInstances heapTwoUsers ⟨[]⟩ [0, 1]).1 1).instance_ ≠ none :=
  SetInstances_distinct heapTwoUsers ⟨[]⟩ [0, 1] 0 1 (by decide) (by decide) (by decide)

/-! ## Further facts about `MergeCLIConfig` -/

theorem Target_eq_of_fields (a b : Target) (h1 : a.Host = b.Host) (h2 : a.Port = b.Port)
    (h3 : a.User = b.User) (h4 : a.Password = b.Password) (h5 : a.Schema = b.Schema)
    (h6 : a.Driver = b.Driver) (h7 : a.instance_ = b.instance_) : a = b := by
  cases a
  cases b
  simp_all

theorem applyDefaults_resolved (t : Target) (hu : t.User ≠ "") (hh : t.Host ≠ "")
    (hp : t.Port ≠ 0) : applyDefaults t = t := by
  simp [applyDefaults, hu, hh, hp]

theorem takeWhile_first_colon (a b : List Char) (h : ':' ∉ a) :
    (a ++ ':' :: b).takeWhile (fun c => decide (c ≠ ':')) = a := by
  induction a with
  | nil =>
    show List.takeWhile _ (':' :: b) = []
    rw [List.takeWhile_cons_of_neg (by simp)]
  | cons c a ih =>
    have hc : c ≠ ':' := fun e => h (List.mem_cons.mpr (Or.inl e.symm))
    have ha : ':' ∉ a := fun e => h (List.mem_cons.mpr (Or.inr e))
    show List.takeWhile _ (c :: (a ++ ':' :: b)) = c :: a
    rw [List.takeWhile_cons_of_pos (by simpa using hc), ih ha]

theorem takeWhile_no_colon (a : List Char) (h : ':' ∉ a) :
    a.takeWhile (fun c => decide (c ≠ ':')) = a := by
  induction a with
  | nil => rfl
  | cons c a ih =>
    have hc : c ≠ ':' := fun e => h (List.mem_cons.mpr (Or.inl e.symm))
    have ha : ':' ∉ a := fun e => h (List.mem_cons.mpr (Or.inr e))
    rw [List.takeWhile_cons_of_pos (by simpa using hc), ih ha]

theorem effectiveHost_eq (t : Target) (o : ParsedGlobalFlags) :
    effectiveHost t o =
      (if (applyOverrides t o).Host = "" then "127.0.0.1" else (applyOverrides t o).Host) := by
  rw [applyOverrides_Host]
  simp only [effectiveHost]
  split_ifs <;> simp_all

theorem effectivePort_eq (t : Target) (o : ParsedGlobalFlags) :
    effectivePort t o = (applyOverrides t o).Port := by
  rw [applyOverrides_Port]
  rfl

/-- Host and Port after the defaulting of a Target whose host has no colon. -/
theorem applyDefaults_plain_host (t : Target) (hn : ':' ∉ t.Host.data) :
    (applyDefaults t).Host = (if t.Host = "" then "127.0.0.1" else t.Host) ∧
      (applyDefaults t).Port = (if t.Port ≠ 0 then t.Port else 3306) := by
  by_cases hp : t.Port = 0
  · have h := applyDefaults_no_colon t hp hn
    rw [h.1, h.2]
    simp [hp]
  · have h := applyDefaults_of_port t hp
    rw [h.1, h.2]
    simp [hp]

/-! ## The remaining claims on `MergeCLIConfig` and the connection strings -/

/-- C13: HostAndOptionalPort is the Host alone when the Port is 3306 and `Host:Port`, the Port
in decimal, for every other Port; it gives `h` for port 3306 and `h:3307` for port 3307. -/
theorem HostAndOptionalPort_format (t : Target) :
    t.HostAndOptionalPort =
      (if t.Port = 3306 then t.Host else t.Host ++ ":" ++ toString t.Port) ∧
    Target.HostAndOptionalPort ⟨"h", 3306, t.User, t.Password, t.Schema, t.Driver, t.instance_⟩ =
      "h" ∧
    Target.HostAndOptionalPort ⟨"h", 3307, t.User, t.Password, t.Schema, t.Driver, t.instance_⟩ =
      "h:3307" := by
  refine ⟨?_, rfl, rfl⟩
  simp only [Target.HostAndOptionalPort, Sprintf_host_port]

/-- C15: when the effective port of a merge with present overrides is non-zero, MergeCLIConfig
leaves Port equal to it and Host equal to the effective host verbatim, colon or not. -/
theorem MergeCLIConfig_no_split (t : Target) (o : ParsedGlobalFlags)
    (hp : effectivePort t o ≠ 0) :
    (t.MergeCLIConfig (some o)).Port = effectivePort t o ∧
    (t.MergeCLIConfig (some o)).Host = effectiveHost t o := by
  rw [effectivePort_eq] at hp
  have h := applyDefaults_of_port (applyOverrides t o) hp
  rw [effectivePort_eq, effectiveHost_eq]
  exact ⟨h.2, h.1⟩

/-- Witness of `MergeCLIConfig_no_split` (C15): the host `db1:3307` with the port 3308 is kept
as it is. -/
theorem MergeCLIConfig_no_split_witness :
    (Target.MergeCLIConfig ⟨"db1:3307", 3308, "", "", "", "", none⟩
      (some ⟨"", "", 0, "", "", ""⟩)).Port = 3308 ∧
    (Target.MergeCLIConfig ⟨"db1:3307", 3308, "", "", "", "", none⟩
      (some ⟨"", "", 0, "", "", ""⟩)).Host = "db1:3307" :=
  MergeCLIConfig_no_split ⟨"db1:3307", 3308, "", "", "", "", none⟩ ⟨"", "", 0, "", "", ""⟩
    (by decide)

/-- C18: when neither the Target's host nor the override host contains a colon, applying
MergeCLIConfig with the same present overrides twice gives the same Target as applying it
once. -/
theorem MergeCLIConfig_idempotent (t : Target) (o : ParsedGlobalFlags)
    (ht : ':' ∉ t.Host.data) (ho : ':' ∉ o.Host.data) :
    (t.MergeCLIConfig (some o)).MergeCLIConfig (some o) = t.MergeCLIConfig (some o) := by
  show applyDefaults (applyOverrides (applyDefaults (applyOverrides t o)) o) =
    applyDefaults (applyOverrides t o)
  have hn : ':' ∉ (applyOverrides t o).Host.data := by
    rw [applyOverrides_Host]
    split_ifs
    · exact ho
    · exact ht
  have hH := applyOverrides_Host t o
  have hP := applyOverrides_Port t o
  have hU := applyOverrides_User t o
  have hW := applyOverrides_Password t o
  have hS := applyOverrides_Schema t o
  generalize applyOverrides t o = u at hn hH hP hU hW hS
  obtain ⟨h1, h2⟩ := applyDefaults_plain_host u hn
  have h3 := applyDefaults_User u
  have h4 := applyDefaults_Password u
  have h5 := applyDefaults_Schema u
  have hnz : ("127.0.0.1" : String) ≠ "" := by decide
  have hr : ("root" : String) ≠ "" := by decide
  have hfix : applyOverrides (applyDefaults u) o = applyDefaults u := by
    apply Target_eq_of_fields
    · rw [applyOverrides_Host, h1, hH]
      split_ifs <;> simp_all
    · rw [applyOverrides_Port, h2, hP]
      split_ifs <;> simp_all
    · rw [applyOverrides_User, h3, hU]
      split_ifs <;> simp_all
    · rw [applyOverrides_Password, h4, hW]
      split_ifs <;> simp_all
    · rw [applyOverrides_Schema, h5, hS]
      split_ifs <;> simp_all
    · rw [applyOverrides_Driver]
    · rw [applyOverrides_instance]
  rw [hfix]
  apply applyDefaults_resolved
  · rw [h3]
    split_ifs with h
    · exact hr
    · exact h
  · rw [h1]
    split_ifs with h
    · exact hnz
    · exact h
  · exact applyDefaults_Port_ne_zero u

/-- Witness of `MergeCLIConfig_idempotent` (C18) on the Target with every field empty and the
override host `db2`. -/
theorem MergeCLIConfig_idempotent_witness :
    (Target.MergeCLIConfig ⟨"", 0, "", "", "", "", none⟩
        (some ⟨"", "db2", 0, "", "", ""⟩)).MergeCLIConfig (some ⟨"", "db2", 0, "", "", ""⟩) =
      Target.MergeCLIConfig ⟨"", 0, "", "", "", "", none⟩ (some ⟨"", "db2", 0, "", "", ""⟩) :=
  MergeCLIConfig_idempotent ⟨"", 0, "", "", "", "", none⟩ ⟨"", "db2", 0, "", "", ""⟩
    (by decide) (by decide)

/-- C19: when the effective port of a merge with present overrides is 0, the Host after
MergeCLIConfig contains no colon: it is the part of the effective host before its first colon,
or the whole effective host when it has none. -/
theorem MergeCLIConfig_host_prefix (t : Target) (o : ParsedGlobalFlags)
    (hp : effectivePort t o = 0) :
    ':' ∉ (t.MergeCLIConfig (some o)).Host.data ∧
    (t.MergeCLIConfig (some o)).Host.data =
      (effectiveHost t o).data.takeWhile (fun c => decide (c ≠ ':')) := by
  rw [effectivePort_eq] at hp
  rw [effectiveHost_eq]
  show ':' ∉ (applyDefaults (applyOverrides t o)).Host.data ∧
    (applyDefaults (applyOverrides t o)).Host.data = _
  generalize applyOverrides t o = u at hp
  by_cases hc : ':' ∈ u.Host.data
  · obtain ⟨a, b, hab, ha⟩ := exists_first_colon_string u.Host hc
    have hne : u.Host ≠ "" := by
      intro e
      rw [e] at hc
      simp at hc
    rw [(applyDefaults_of_colon u a b hp hab ha).1, if_neg hne, hab]
    refine ⟨ha, ?_⟩
    have hd : (a ++ ":" ++ b).data = a.data ++ ':' :: b.data := by
      simp [String.data_append]
    rw [hd, takeWhile_first_colon _ _ ha]
  · rw [(applyDefaults_no_colon u hp hc).1]
    have hk : ':' ∉ (if u.Host = "" then "127.0.0.1" else u.Host).data := by
      split_ifs
      · decide
      · exact hc
    exact ⟨hk, (takeWhile_no_colon _ hk).symm⟩

/-- Witness of `MergeCLIConfig_host_prefix` (C19): the host `a:b:c` with port 0 becomes `a`. -/
theorem MergeCLIConfig_host_prefix_witness :
    ':' ∉ (Target.MergeCLIConfig ⟨"a:b:c", 0, "", "", "", "", none⟩
      (some ⟨"", "", 0, "", "", ""⟩)).Host.data ∧
    (Target.MergeCLIConfig ⟨"a:b:c", 0, "", "", "", "", none⟩
      (some ⟨"", "", 0, "", "", ""⟩)).Host.data = ['a'] :=
  MergeCLIConfig_host_prefix ⟨"a:b:c", 0, "", "", "", "", none⟩ ⟨"", "", 0, "", "", ""⟩
    (by decide)

/-! ## The claim on `ParseGlobalFlags` -/

/-- C11: ParseGlobalFlags returns a nil error exactly when the six typed retrievals all succeed,
and then the record holds the six retrieved values unchanged; in every case its error is
`Invalid value for --X option` for the first option X, in the order dir, host, port, user,
password, schema, whose retrieval fails, and nil when there is none. -/
theorem ParseGlobalFlags_spec (flags : FlagSet) :
    ((ParseGlobalFlags flags).2 = none ↔
      ((flags.GetString "dir").2 = none ∧ (flags.GetString "host").2 = none ∧
       (flags.GetInt "port").2 = none ∧ (flags.GetString "user").2 = none ∧
       (flags.GetString "password").2 = none ∧ (flags.GetString "schema").2 = none)) ∧
    ((ParseGlobalFlags flags).2 = none →
      (ParseGlobalFlags flags).1 =
        ⟨(flags.GetString "dir").1, (flags.GetString "host").1, (flags.GetInt "port").1,
         (flags.GetString "user").1, (flags.GetString "password").1,
         (flags.GetString "schema").1⟩) ∧
    (ParseGlobalFlags flags).2 =
      (firstFailedOption flags).map (fun x => "Invalid value for --" ++ x ++ " option") := by
  have e1 : ("Invalid value for --" ++ "dir" ++ " option" : String) =
      "Invalid value for --dir option" := by decide
  have e2 : ("Invalid value for --" ++ "host" ++ " option" : String) =
      "Invalid value for --host option" := by decide
  have e3 : ("Invalid value for --" ++ "port" ++ " option" : String) =
      "Invalid value for --port option" := by decide
  have e4 : ("Invalid value for --" ++ "user" ++ " option" : String) =
      "Invalid value for --user option" := by decide
  have e5 : ("Invalid value for --" ++ "password" ++ " option" : String) =
      "Invalid value for --password option" := by decide
  have e6 : ("Invalid value for --" ++ "schema" ++ " option" : String) =
      "Invalid value for --schema option" := by decide
  have r1 : retrievalFails flags "dir" = (flags.GetString "dir").2.isSome := by
    simp [retrievalFails]
  have r2 : retrievalFails flags "host" = (flags.GetString "host").2.isSome := by
    simp [retrievalFails]
  have r3 : retrievalFails flags "port" = (flags.GetInt "port").2.isSome := by
    simp [retrievalFails]
  have r4 : retrievalFails flags "user" = (flags.GetString "user").2.isSome := by
    simp [retrievalFails]
  have r5 : retrievalFails flags "password" = (flags.GetString "password").2.isSome := by
    simp [retrievalFails]
  have r6 : retrievalFails flags "schema" = (flags.GetString "schema").2.isSome := by
    simp [retrievalFails]
  simp only [ParseGlobalFlags, firstFailedOption, List.find?, r1, r2, r3, r4, r5, r6]
  cases h1 : (flags.GetString "dir").2 <;>
  cases h2 : (flags.GetString "host").2 <;>
  cases h3 : (flags.GetInt "port").2 <;>
  cases h4 : (flags.GetString "user").2 <;>
  cases h5 : (flags.GetString "password").2 <;>
  cases h6 : (flags.GetString "schema").2 <;>
  simp [e1, e2, e3, e4, e5, e6]

/-- Witness of `ParseGlobalFlags_spec` (C11): on a flag set whose retrievals all succeed the
record holds the retrieved values. -/
theorem ParseGlobalFlags_spec_witness :
    (ParseGlobalFlags flagsGood).1 = ⟨"d", "h", 3307, "u", "p", "s"⟩ :=
  (ParseGlobalFlags_spec flagsGood).2.1 (by decide)

/-! ## The claim on `Instance` -/

theorem Instance_of_nil (h : Heap) (w : Tengo) (p : Nat) (hn : (h p).instance_ = none) :
    Instance h w p =
      (some w.calls.length,
       Function.update h p { h p with instance_ := some w.calls.length },
       { calls := w.calls ++ [((h p).Driver, (h p).BaseDSN)] }) := by
  simp [Instance, NewInstance, hn]

theorem Instance_of_some (h : Heap) (w : Tengo) (p : Nat) (hn : (h p).instance_ ≠ none) :
    Instance h w p = ((h p).instance_, h, w) := by
  simp [Instance, hn]

/-- C14: on a Target without instance the first `Instance()` call invokes the factory once, with
the Driver and the BaseDSN, and stores the object; a later call on that Target returns the same
object and changes nothing, so that no factory call is made; two different Targets without
instance get two distinct objects, equal BaseDSN or not; and after SetInstances a Target of the
list gets the instance it holds, with no factory call. -/
theorem Instance_lazy (h : Heap) (w : Tengo) (tl : TargetList) (p q : Nat) :
    ((h p).instance_ = none →
      Instance h w p =
        (some w.calls.length,
         Function.update h p { h p with instance_ := some w.calls.length },
         { calls := w.calls ++ [((h p).Driver, (h p).BaseDSN)] })) ∧
    Instance (Instance h w p).2.1 (Instance h w p).2.2 p =
      ((Instance h w p).1, (Instance h w p).2.1, (Instance h w p).2.2) ∧
    (p ≠ q → (h p).instance_ = none → (h q).instance_ = none →
      (h p).BaseDSN = (h q).BaseDSN →
      (Instance h w p).1 ≠ none ∧
      (Instance (Instance h w p).2.1 (Instance h w p).2.2 q).1 ≠ none ∧
      (Instance h w p).1 ≠ (Instance (Instance h w p).2.1 (Instance h w p).2.2 q).1) ∧
    (p ∈ tl →
      Instance (SetInstances h w tl).1 (SetInstances h w tl).2 p =
        (((SetInstances h w tl).1 p).instance_, (SetInstances h w tl).1,
          (SetInstances h w tl).2)) := by
  refine ⟨Instance_of_nil h w p, ?_, ?_, ?_⟩
  · by_cases hn : (h p).instance_ = none
    · rw [Instance_of_nil h w p hn]
      rw [Instance_of_some]
      · simp
      · simp
    · rw [Instance_of_some h w p hn]
      exact Instance_of_some h w p hn
  · intro hpq hp hq _
    rw [Instance_of_nil h w p hp]
    have hq2 : (Function.update h p { h p with instance_ := some w.calls.length } q).instance_ =
        none := by
      rw [Function.update_noteq (Ne.symm hpq)]
      exact hq
    rw [Instance_of_nil _ _ q hq2]
    simp
  · intro hp
    exact Instance_of_some _ _ p (SetInstances_shared_iff h w tl p p hp hp).1

/-- Witness of `Instance_lazy` (C14): two Targets that differ in Schema only get the objects 0
and 1 from their own accessors, and one shared object after SetInstances. -/
theorem Instance_lazy_witness :
    (Instance heapTwoSchemas ⟨[]⟩ 0).1 ≠
      (Instance (Instance heapTwoSchemas ⟨[]⟩ 0).2.1 (Instance heapTwoSchemas ⟨[]⟩ 0).2.2 1).1 ∧
    (Instance (SetInstances heapTwoSchemas ⟨[]⟩ [0, 1]).1
        (SetInstances heapTwoSchemas ⟨[]⟩ [0, 1]).2 1).1 =
      ((SetInstances heapTwoSchemas ⟨[]⟩ [0, 1]).1 0).instance_ :=
  ⟨((Instance_lazy heapTwoSchemas ⟨[]⟩ [0, 1] 0 1).2.2.1 (by decide) rfl rfl rfl).2.2,
   by
    have e := (Instance_lazy heapTwoSchemas ⟨[]⟩ [0, 1] 1 1).2.2.2 (by decide)
    rw [e]
    decide⟩

/-! ## Further facts about `SetInstances` -/

theorem step_Driver (s : SetInstancesState) (p q : Nat) :
    ((SetInstances.step s p).heap q).Driver = (s.heap q).Driver := by
  by_cases h : q = p
  · subst h
    rw [step_heap_self]
  · rw [step_heap_other s p q h]

/-- The factory calls made by the loop of `SetInstances` from a consistent state: one call for
each BaseDSN of the list that the map does not hold yet, made with the Driver of the first
Target of the list that has this BaseDSN. -/
theorem loop_calls (dsn drv : Nat → String) (tl : TargetList) (s : SetInstancesState)
    (hs : MapOK s) (hd : ∀ q, (s.heap q).BaseDSN = dsn q)
    (hv : ∀ q, (s.heap q).Driver = drv q) :
    ∃ new, (SetInstances.loop s tl).tengo.calls = s.tengo.calls ++ new ∧
      (∀ d, (new.map Prod.snd).count d =
        if s.dsnToInstance d = none ∧ d ∈ tl.map dsn then 1 else 0) ∧
      (∀ d, s.dsnToInstance d = none → d ∈ tl.map dsn →
        ∃ k q0, (SetInstances.loop s tl).dsnToInstance d = some k ∧
          s.tengo.calls.length ≤ k ∧
          tl.find? (fun q => decide (dsn q = d)) = some q0 ∧
          (SetInstances.loop s tl).tengo.calls[k]? = some (drv q0, d)) := by
  induction tl generalizing s with
  | nil =>
    refine ⟨[], by simp [SetInstances.loop], ?_, ?_⟩
    · intro d
      simp
    · intro d _ hm
      simp at hm
  | cons p tl ih =>
    have hs1 := step_MapOK s p hs
    have hd1 : ∀ q, ((SetInstances.step s p).heap q).BaseDSN = dsn q := fun q => by
      rw [step_BaseDSN, hd]
    have hv1 : ∀ q, ((SetInstances.step s p).heap q).Driver = drv q := fun q => by
      rw [step_Driver, hv]
    obtain ⟨new1, hc1, hcount1, hfirst1⟩ := ih (SetInstances.step s p) hs1 hd1 hv1
    have hmono := (loop_spec tl _ hs1).2.1
    have hloop : SetInstances.loop s (p :: tl) = SetInstances.loop (SetInstances.step s p) tl :=
      rfl
    have hm1 := step_dsnToInstance s p
    have hk1 := step_calls s p
    rw [hd p] at hm1 hk1
    rw [hv p] at hk1
    rw [hloop]
    have hmem : ∀ d, d ≠ dsn p → (d ∈ (p :: tl).map dsn ↔ d ∈ tl.map dsn) := by
      intro d hne
      simp [hne]
    have hfind : ∀ d, d ≠ dsn p →
        (p :: tl).find? (fun q => decide (dsn q = d)) =
          tl.find? (fun q => decide (dsn q = d)) := by
      intro d hne
      rw [List.find?_cons_of_neg]
      simpa using Ne.symm hne
    by_cases h0 : s.dsnToInstance (dsn p) = none
    · rw [if_pos h0] at hm1 hk1
      refine ⟨(drv p, dsn p) :: new1, ?_, ?_, ?_⟩
      · rw [hc1, hk1]
        simp
      · intro d
        rw [List.map_cons, List.count_cons, hcount1 d, hm1]
        by_cases hdd : d = dsn p
        · rw [hdd]
          simp [h0]
        · have hb : (dsn p == d) = false := by simpa using Ne.symm hdd
          rw [Function.update_noteq hdd]
          simp only [hb, hmem d hdd]
          simp
      · intro d hnone hin
        by_cases hdd : d = dsn p
        · refine ⟨s.tengo.calls.length, p, ?_, le_refl _, ?_, ?_⟩
          · apply hmono
            rw [hm1, hdd, Function.update_same]
          · rw [List.find?_cons_of_pos]
            simpa using hdd.symm
          · rw [hc1, hk1, hdd, List.append_assoc,
              List.getElem?_append_right (le_refl _)]
            simp
        · have hnone1 : (SetInstances.step s p).dsnToInstance d = none := by
            rw [hm1, Function.update_noteq hdd]
            exact hnone
          obtain ⟨k, q0, e1, e2, e3, e4⟩ := hfirst1 d hnone1 ((hmem d hdd).mp hin)
          refine ⟨k, q0, e1, ?_, ?_, e4⟩
          · rw [hk1] at e2
            simp only [List.length_append, List.length_singleton] at e2
            omega
          · rw [hfind d hdd]
            exact e3
    · rw [if_neg h0] at hm1 hk1
      refine ⟨new1, ?_, ?_, ?_⟩
      · rw [hc1, hk1]
      · intro d
        rw [hcount1 d, hm1]
        by_cases hdd : d = dsn p
        · rw [hdd]
          simp [h0]
        · simp only [hmem d hdd]
      · intro d hnone hin
        have hdd : d ≠ dsn p := by
          intro e
          rw [e] at hnone
          exact h0 hnone
        have hnone1 : (SetInstances.step s p).dsnToInstance d = none := by
          rw [hm1]
          exact hnone
        obtain ⟨k, q0, e1, e2, e3, e4⟩ := hfirst1 d hnone1 ((hmem d hdd).mp hin)
        refine ⟨k, q0, e1, ?_, ?_, e4⟩
        · rw [hk1] at e2
          exact e2
        · rw [hfind d hdd]
          exact e3

theorem length_eq_dedup_of_count (l₁ l₂ : List String)
    (hc : ∀ d, l₁.count d = if d ∈ l₂ then 1 else 0) : l₁.length = l₂.dedup.length := by
  have hnd : l₁.Nodup := by
    rw [List.nodup_iff_count_le_one]
    intro d
    rw [hc d]
    split_ifs <;> omega
  have hset : l₁.toFinset = l₂.toFinset := by
    ext d
    rw [List.mem_toFinset, List.mem_toFinset, ← List.count_pos_iff, hc d]
    split_ifs with hm
    · simp [hm]
    · simp [hm]
  rw [← List.toFinset_card_of_nodup hnd, hset, List.card_toFinset]

theorem dedup_length_congr {α β : Type} [DecidableEq α] [DecidableEq β] (f : Nat → α)
    (g : Nat → β) (tl : List Nat)
    (hfg : ∀ p q, p ∈ tl → q ∈ tl → (f p = f q ↔ g p = g q)) :
    (tl.map f).dedup.length = (tl.map g).dedup.length := by
  induction tl with
  | nil => rfl
  | cons a tl ih =>
    have ih2 := ih (fun p q hp hq =>
      hfg p q (List.mem_cons.mpr (Or.inr hp)) (List.mem_cons.mpr (Or.inr hq)))
    have hmem : f a ∈ tl.map f ↔ g a ∈ tl.map g := by
      simp only [List.mem_map]
      constructor
      · rintro ⟨q, hq, e⟩
        exact ⟨q, hq, (hfg q a (List.mem_cons.mpr (Or.inr hq))
          (List.mem_cons.mpr (Or.inl rfl))).mp e⟩
      · rintro ⟨q, hq, e⟩
        exact ⟨q, hq, (hfg q a (List.mem_cons.mpr (Or.inr hq))
          (List.mem_cons.mpr (Or.inl rfl))).mpr e⟩
    by_cases hm : f a ∈ tl.map f
    · rw [List.map_cons, List.map_cons, List.dedup_cons_of_mem hm,
        List.dedup_cons_of_mem (hmem.mp hm)]
      exact ih2
    · rw [List.map_cons, List.map_cons, List.dedup_cons_of_not_mem hm,
        List.dedup_cons_of_not_mem (fun e => hm (hmem.mpr e))]
      simp only [List.length_cons, ih2]

/-- The factory calls of `SetInstances`: the record of calls grows by one call for each BaseDSN
of the list. -/
theorem SetInstances_calls (h : Heap) (w : Tengo) (tl : TargetList) :
    ∃ new, (SetInstances h w tl).2.calls = w.calls ++ new ∧
      ∀ d, (new.map Prod.snd).count d =
        if d ∈ tl.map (fun q => (h q).BaseDSN) then 1 else 0 := by
  have h0 : MapOK { heap := h, tengo := w, dsnToInstance := fun _ => none } :=
    ⟨fun _ _ _ hd _ => Option.noConfusion hd, fun _ _ hd => Option.noConfusion hd⟩
  obtain ⟨new, h1, h2, -⟩ := loop_calls (fun q => (h q).BaseDSN) (fun q => (h q).Driver) tl _ h0
    (fun _ => rfl) (fun _ => rfl)
  refine ⟨new, h1, ?_⟩
  intro d
  rw [h2 d]
  simp

/-- The instance of a Target of the list after `SetInstances`: an object built during the call,
with the Driver of the first Target of the list that has the same BaseDSN. -/
theorem SetInstances_args (h : Heap) (w : Tengo) (tl : TargetList) (p : Nat) (hp : p ∈ tl) :
    ∃ k q0, ((SetInstances h w tl).1 p).instance_ = some k ∧ w.calls.length ≤ k ∧
      firstWithDSN h tl (h p).BaseDSN = some q0 ∧ q0 ∈ tl ∧
      (h q0).BaseDSN = (h p).BaseDSN ∧
      instanceArgs (SetInstances h w tl) p = some ((h q0).Driver, (h p).BaseDSN) := by
  have h0 : MapOK { heap := h, tengo := w, dsnToInstance := fun _ => none } :=
    ⟨fun _ _ _ hd _ => Option.noConfusion hd, fun _ _ hd => Option.noConfusion hd⟩
  obtain ⟨new, -, -, h3⟩ := loop_calls (fun q => (h q).BaseDSN) (fun q => (h q).Driver) tl _ h0
    (fun _ => rfl) (fun _ => rfl)
  obtain ⟨-, -, -, -, h5⟩ := loop_spec tl _ h0
  obtain ⟨k, q0, e1, e2, e3, e4⟩ := h3 (h p).BaseDSN rfl (List.mem_map.mpr ⟨p, hp, rfl⟩)
  obtain ⟨j, f1, f2⟩ := h5 p hp
  have hjk : j = k := by
    have f3 : (SetInstances.loop _ tl).dsnToInstance (h p).BaseDSN = some j := f2
    rw [e1] at f3
    exact (Option.some.inj f3).symm
  subst hjk
  have hq0 : q0 ∈ tl := List.mem_of_find?_eq_some e3
  have hq1 : (h q0).BaseDSN = (h p).BaseDSN := by
    have := List.find?_some e3
    simpa using this
  refine ⟨j, q0, f1, e2, e3, hq0, hq1, ?_⟩
  have f4 : ((SetInstances h w tl).1 p).instance_ = some j := f1
  simp only [instanceArgs, f4]
  exact e4

/-- Two runs of the loop of `SetInstances` from states with the same map, the same record of
calls and the same BaseDSN and Driver at every address end with the same map. -/
theorem loop_map_congr (tl : TargetList) (s s2 : SetInstancesState)
    (hc : s.tengo.calls = s2.tengo.calls) (hm : s.dsnToInstance = s2.dsnToInstance)
    (hd : ∀ a, (s.heap a).BaseDSN = (s2.heap a).BaseDSN)
    (hv : ∀ a, (s.heap a).Driver = (s2.heap a).Driver) :
    (SetInstances.loop s tl).dsnToInstance = (SetInstances.loop s2 tl).dsnToInstance := by
  induction tl generalizing s s2 with
  | nil => exact hm
  | cons p tl ih =>
    have hl : SetInstances.loop s (p :: tl) = SetInstances.loop (SetInstances.step s p) tl := rfl
    have hl2 : SetInstances.loop s2 (p :: tl) = SetInstances.loop (SetInstances.step s2 p) tl :=
      rfl
    rw [hl, hl2]
    apply ih
    · rw [step_calls, step_calls, hc, hm, hd p, hv p]
    · rw [step_dsnToInstance, step_dsnToInstance, hc, hm, hd p]
    · intro a
      rw [step_BaseDSN, step_BaseDSN, hd a]
    · intro a
      rw [step_Driver, step_Driver, hv a]

/-- The instance of a Target of the list after `SetInstances` is the same from two heaps that
agree on the BaseDSN and the Driver at every address, whatever instances they hold. -/
theorem SetInstances_heap_congr (h h2 : Heap) (w : Tengo) (tl : TargetList) (p : Nat)
    (hp : p ∈ tl) (hd : ∀ a, (h2 a).BaseDSN = (h a).BaseDSN)
    (hv : ∀ a, (h2 a).Driver = (h a).Driver) :
    ((SetInstances h2 w tl).1 p).instance_ = ((SetInstances h w tl).1 p).instance_ := by
  have h0 : MapOK { heap := h, tengo := w, dsnToInstance := fun _ => none } :=
    ⟨fun _ _ _ hd _ => Option.noConfusion hd, fun _ _ hd => Option.noConfusion hd⟩
  have h1 : MapOK { heap := h2, tengo := w, dsnToInstance := fun _ => none } :=
    ⟨fun _ _ _ hd _ => Option.noConfusion hd, fun _ _ hd => Option.noConfusion hd⟩
  obtain ⟨k, e1, e2⟩ := (loop_spec tl _ h0).2.2.2.2 p hp
  obtain ⟨j, f1, f2⟩ := (loop_spec tl _ h1).2.2.2.2 p hp
  have hmap := loop_map_congr tl
    { heap := h2, tengo := w, dsnToInstance := fun _ => none }
    { heap := h, tengo := w, dsnToInstance := fun _ => none } rfl rfl hd hv
  have f3 : (SetInstances.loop { heap := h2, tengo := w, dsnToInstance := fun _ => none }
      tl).dsnToInstance (h2 p).BaseDSN = some j := f2
  have e3 : (SetInstances.loop { heap := h, tengo := w, dsnToInstance := fun _ => none }
      tl).dsnToInstance (h p).BaseDSN = some k := e2
  rw [hmap, hd p, e3] at f3
  show ((SetInstances.loop _ tl).heap p).instance_ = ((SetInstances.loop _ tl).heap p).instance_
  rw [e1, f1, f3]

/-! ## The remaining claims on `SetInstances` -/

/-- C12: SetInstances invokes the factory exactly once for each distinct BaseDSN of the list, so
that the number of calls is the number of distinct BaseDSN strings; afterwards two Targets of
the list hold the same instance exactly when their BaseDSN strings are equal; and the number of
distinct instances held by the list is the number of distinct BaseDSN strings. -/
theorem SetInstances_once_per_DSN (h : Heap) (w : Tengo) (tl : TargetList) :
    (∃ new, (SetInstances h w tl).2.calls = w.calls ++ new ∧
      (∀ d, (new.map Prod.snd).count d =
        if d ∈ tl.map (fun q => (h q).BaseDSN) then 1 else 0) ∧
      new.length = (tl.map (fun q => (h q).BaseDSN)).dedup.length) ∧
    (∀ p q, p ∈ tl → q ∈ tl →
      (((SetInstances h w tl).1 p).instance_ = ((SetInstances h w tl).1 q).instance_ ↔
        (h p).BaseDSN = (h q).BaseDSN)) ∧
    (tl.map (fun p => ((SetInstances h w tl).1 p).instance_)).dedup.length =
      (tl.map (fun q => (h q).BaseDSN)).dedup.length := by
  have hiff : ∀ p q, p ∈ tl → q ∈ tl →
      (((SetInstances h w tl).1 p).instance_ = ((SetInstances h w tl).1 q).instance_ ↔
        (h p).BaseDSN = (h q).BaseDSN) :=
    fun p q hp hq => (SetInstances_shared_iff h w tl p q hp hq).2.2
  obtain ⟨new, h1, h2⟩ := SetInstances_calls h w tl
  refine ⟨⟨new, h1, h2, ?_⟩, hiff, dedup_length_congr _ _ tl hiff⟩
  have := length_eq_dedup_of_count (new.map Prod.snd) _ h2
  rwa [List.length_map] at this

/-- Witness of `SetInstances_once_per_DSN` (C12): of three Targets, two equal up to the Schema
and one with another User, the first two share their instance and the list holds exactly two
distinct instances. -/
theorem SetInstances_once_per_DSN_witness :
    (((SetInstances heapThree ⟨[]⟩ [0, 1, 2]).1 0).instance_ =
        ((SetInstances heapThree ⟨[]⟩ [0, 1, 2]).1 1).instance_ ↔
      (heapThree 0).BaseDSN = (heapThree 1).BaseDSN) ∧
    ([0, 1, 2].map
      (fun p => ((SetInstances heapThree ⟨[]⟩ [0, 1, 2]).1 p).instance_)).dedup.length = 2 :=
  ⟨(SetInstances_once_per_DSN heapThree ⟨[]⟩ [0, 1, 2]).2.1 0 1 (by decide) (by decide),
   (SetInstances_once_per_DSN heapThree ⟨[]⟩ [0, 1, 2]).2.2.trans (by decide)⟩

/-- C17: the instance that a Target of the list holds after SetInstances was built during the
call with the Driver of the first Target of the list having the same BaseDSN, and with that
BaseDSN; and it is the same whatever instances the Targets held before the call. -/
theorem SetInstances_first_driver (h : Heap) (w : Tengo) (tl : TargetList) (p : Nat)
    (hp : p ∈ tl) :
    (∃ q0, firstWithDSN h tl (h p).BaseDSN = some q0 ∧
      instanceArgs (SetInstances h w tl) p = some ((h q0).Driver, (h p).BaseDSN)) ∧
    (∃ k, ((SetInstances h w tl).1 p).instance_ = some k ∧ w.calls.length ≤ k) ∧
    (∀ i : Nat → InstancePtr,
      ((SetInstances (fun a => { h a with instance_ := i a }) w tl).1 p).instance_ =
        ((SetInstances h w tl).1 p).instance_) := by
  obtain ⟨k, q0, e1, e2, e3, -, -, e6⟩ := SetInstances_args h w tl p hp
  exact ⟨⟨q0, e3, e6⟩, ⟨k, e1, e2⟩,
    fun i => SetInstances_heap_congr h _ w tl p hp (fun _ => rfl) (fun _ => rfl)⟩

/-- Witness of `SetInstances_first_driver` (C17): the second of two Targets on one server, which
held the instance 1 and has the Driver `postgres`, ends with the instance 2, built with the
Driver `mysql` of the first Target. -/
theorem SetInstances_first_driver_witness :
    (∃ q0, firstWithDSN heapHeld [0, 1] (heapHeld 1).BaseDSN = some q0 ∧
      instanceArgs (SetInstances heapHeld tengoTwoCalls [0, 1]) 1 =
        some ((heapHeld q0).Driver, (heapHeld 1).BaseDSN)) ∧
    (∃ k, ((SetInstances heapHeld tengoTwoCalls [0, 1]).1 1).instance_ = some k ∧
      tengoTwoCalls.calls.length ≤ k) ∧
    (∀ i : Nat → InstancePtr,
      ((SetInstances (fun a => { heapHeld a with instance_ := i a }) tengoTwoCalls
          [0, 1]).1 1).instance_ =
        ((SetInstances heapHeld tengoTwoCalls [0, 1]).1 1).instance_) :=
  SetInstances_first_driver heapHeld tengoTwoCalls [0, 1] 1 (by decide)

/-- The code at the input of the witness of C17: both Targets end with the instance 2, built
with the Driver `mysql`. -/
theorem SetInstances_first_driver_eval :
    ((SetInstances heapHeld tengoTwoCalls [0, 1]).1 0).instance_ = some 2 ∧
    ((SetInstances heapHeld tengoTwoCalls [0, 1]).1 1).instance_ = some 2 ∧
    instanceArgs (SetInstances heapHeld tengoTwoCalls [0, 1]) 1 =
      some ("mysql", "root:p@tcp(h:3306)/") := by
  decide

/-- C16 (as stated, refuted): the list `[1, 0]` is a permutation of `[0, 1]`, and for two
Targets that differ in Driver only the shared instance is built with the Driver `mysql` in the
order `[0, 1]` and with the Driver `postgres` in the order `[1, 0]`. -/
theorem SetInstances_order_fails :
    List.Perm [1, 0] [0, 1] ∧
    instanceArgs (SetInstances heapTwoDrivers ⟨[]⟩ [0, 1]) 0 =
      some ("mysql", "root:p@tcp(h:3306)/") ∧
    instanceArgs (SetInstances heapTwoDrivers ⟨[]⟩ [1, 0]) 0 =
      some ("postgres", "root:p@tcp(h:3306)/") :=
  ⟨List.Perm.swap 0 1 [], by decide, by decide⟩

/-- C16 (amended): for a permutation of the list, two Targets hold the same instance after
SetInstances on the permuted list exactly when they do after SetInstances on the original
list; the instance of a Target is built with the same DSN argument, its BaseDSN, in both
orders; and it is built with the same Driver argument in both orders when the Targets of the
list that have equal BaseDSN have equal Driver. -/
theorem SetInstances_order (h : Heap) (w : Tengo) (tl tl2 : TargetList)
    (hperm : tl2.Perm tl) :
    (∀ p q, p ∈ tl → q ∈ tl →
      (((SetInstances h w tl2).1 p).instance_ = ((SetInstances h w tl2).1 q).instance_ ↔
        ((SetInstances h w tl).1 p).instance_ = ((SetInstances h w tl).1 q).instance_)) ∧
    (∀ p, p ∈ tl →
      (instanceArgs (SetInstances h w tl2) p).map Prod.snd = some (h p).BaseDSN ∧
      (instanceArgs (SetInstances h w tl) p).map Prod.snd = some (h p).BaseDSN) ∧
    ((∀ a ∈ tl, ∀ b ∈ tl, (h a).BaseDSN = (h b).BaseDSN → (h a).Driver = (h b).Driver) →
      ∀ p, p ∈ tl →
        instanceArgs (SetInstances h w tl2) p = instanceArgs (SetInstances h w tl) p) := by
  refine ⟨?_, ?_, ?_⟩
  · intro p q hp hq
    have hp2 : p ∈ tl2 := hperm.mem_iff.mpr hp
    have hq2 : q ∈ tl2 := hperm.mem_iff.mpr hq
    rw [(SetInstances_shared_iff h w tl2 p q hp2 hq2).2.2,
      (SetInstances_shared_iff h w tl p q hp hq).2.2]
  · intro p hp
    have hp2 : p ∈ tl2 := hperm.mem_iff.mpr hp
    obtain ⟨_, q0, -, -, -, -, -, e⟩ := SetInstances_args h w tl p hp
    obtain ⟨_, q2, -, -, -, -, -, e2⟩ := SetInstances_args h w tl2 p hp2
    rw [e, e2]
    exact ⟨rfl, rfl⟩
  · intro hdrv p hp
    have hp2 : p ∈ tl2 := hperm.mem_iff.mpr hp
    obtain ⟨_, q0, -, -, -, m, d, e⟩ := SetInstances_args h w tl p hp
    obtain ⟨_, q2, -, -, -, m2, d2, e2⟩ := SetInstances_args h w tl2 p hp2
    rw [e, e2, hdrv q0 m p hp d, hdrv q2 (hperm.mem_iff.mp m2) p hp d2]

/-- Witness of `SetInstances_order` (C16): for two Targets that differ in Schema only, the
instance of the first is built with the same arguments in the orders `[1, 0]` and `[0, 1]`. -/
theorem SetInstances_order_witness :
    instanceArgs (SetInstances heapTwoSchemas ⟨[]⟩ [1, 0]) 0 =
      instanceArgs (SetInstances heapTwoSchemas ⟨[]⟩ [0, 1]) 0 :=
  (SetInstances_order heapTwoSchemas ⟨[]⟩ [0, 1] [1, 0] (List.Perm.swap 0 1 [])).2.2
    (by decide) 0 (by decide)

end Skeema
